import Mathlib

/-!
# Verification of the Navbharat-Sauwad backend's edition digitization core

Shallow embedding, in Lean 4, of the parts of the repository that the
specification's testable properties talk about:

* the slug generator (`src/utils/slugGenerator.js`, shipped inside
  `src/README.md` in this source drop): `generateSlug`, `generateUniqueSlug`;
* the e-paper update route `PUT /api/epapers/:id` of `src/routes/epapers.js`
  (page/section payload normalization and whole-array replacement);
* the identifier resolution of `GET /api/epapers/:id` (unnamed route file,
  `src/unnamed/part_013`);
* the PDF page conversion loop (`src/services/cloudinaryService.js`,
  `convertPDFToImages`);
* the cropped-share-URL builder (`src/utils/metaHtmlGenerator.js`,
  `getCroppedImageUrl`);
* the `Epaper` mongoose pre-save hook (`src/models/Epaper.js`).

JavaScript values appearing in request payloads are modelled over the
JSON-representable fragment (numbers as exact rationals, strings, null,
absent); strings are modelled as Lean strings whose characters are BMP
scalar values, so that one Lean `Char` corresponds to one UTF-16 code unit
and `charCodeAt` is `Char.toNat`.
-/

/-! ## JavaScript numeric primitives -/

/-- JS `ToInt32`: wrap an integer into the signed 32-bit range, as used by the
`<<` operator in `(acc << 5) - acc`. -/
def toInt32 (x : ℤ) : ℤ :=
  let r := x % 4294967296
  if r < 2147483648 then r else r - 4294967296

/-- One step of the slug generator's fallback hash
(`((acc << 5) - acc) + char.charCodeAt(0)` from `generateSlug`).
`acc << 5` is `ToInt32 (ToInt32 acc * 32)`; since `ToInt32 acc ≡ acc
(mod 2^32)` this equals `toInt32 (acc * 32)`. -/
def hashStep (acc : ℤ) (c : ℕ) : ℤ :=
  toInt32 (acc * 32) - acc + (c : ℤ)

/-- The additive/bit-shift hash `text.split('').reduce(...)` of `generateSlug`,
over the UTF-16 code units of the input. -/
def jsHash (text : List Char) : ℤ :=
  text.foldl (fun acc ch => hashStep acc ch.toNat) 0

/-- Digit character used by JS `Number.prototype.toString(36)`:
`0-9` then lowercase `a-z`. -/
def base36Digit (d : ℕ) : Char :=
  if d < 10 then Char.ofNat (48 + d) else Char.ofNat (87 + d)

/-- Base-36 digit list of `n`, most significant first (empty for `0`).
Structural recursion on a fuel argument so the kernel can evaluate it;
`fuel ≥ n` always suffices since `n / 36 < n` for `n ≥ 1`. -/
def toBase36Core : ℕ → ℕ → List Char → List Char
  | _, 0, acc => acc
  | 0, _, acc => acc
  | fuel + 1, n + 1, acc =>
    toBase36Core fuel ((n + 1) / 36) (base36Digit ((n + 1) % 36) :: acc)

/-- JS `n.toString(36)` for a nonnegative integer `n`. -/
def toBase36 (n : ℕ) : String :=
  if n = 0 then "0" else String.mk (toBase36Core n n [])

/-! ## JavaScript character classes used by the slug generator -/

/-- JS whitespace (`\s`, also the set removed by `String.prototype.trim`):
space, tab, line terminators, and the Unicode space separators. -/
def isJsSpace (c : Char) : Bool :=
  c == ' ' || c == '\t' || c == '\n' || c == '\r' ||
  c == Char.ofNat 11 || c == Char.ofNat 12 ||
  c == Char.ofNat 0x00A0 || c == Char.ofNat 0x1680 ||
  (0x2000 ≤ c.toNat && c.toNat ≤ 0x200A) ||
  c == Char.ofNat 0x2028 || c == Char.ofNat 0x2029 ||
  c == Char.ofNat 0x202F || c == Char.ofNat 0x205F ||
  c == Char.ofNat 0x3000 || c == Char.ofNat 0xFEFF

/-- The quote class removed by `generateSlug` (the source's character class
literally contains only ASCII `'` and `"`). -/
def isQuoteChar (c : Char) : Bool :=
  c == '\'' || c == '"'

/-- The punctuation class removed by `generateSlug`:
`[।.!?।,;:()\[\]{}]`. -/
def isPunctChar (c : Char) : Bool :=
  c == '।' || c == '.' || c == '!' || c == '?' || c == ',' || c == ';' ||
  c == ':' || c == '(' || c == ')' || c == '[' || c == ']' ||
  c == '{' || c == '}'

/-- The symbol class removed by `generateSlug`:
``[@#$%^&*+=|\\/<>~`]``. -/
def isSymbolChar (c : Char) : Bool :=
  c == '@' || c == '#' || c == '$' || c == '%' || c == '^' || c == '&' ||
  c == '*' || c == '+' || c == '=' || c == '|' || c == '\\' || c == '/' ||
  c == '<' || c == '>' || c == '~' || c == '`'

/-! ## The slug generator (`generateSlug`) -/

/-- JS `String.prototype.trim`: drop leading and trailing whitespace. -/
def jsTrim (l : List Char) : List Char :=
  ((l.dropWhile isJsSpace).reverse.dropWhile isJsSpace).reverse

/-- Global replace of the regex `<[^>]+>` with `''`: at a `<`, if some later `>`
exists with at least one character in between, everything through that first
`>` is removed; otherwise the `<` is kept. -/
def stripTagsCore : ℕ → List Char → List Char
  | _, [] => []
  | 0, l => l
  | fuel + 1, c :: rest =>
    if c == '<' then
      match rest.findIdx? (· == '>') with
      | some j =>
        if j = 0 then
          -- `<>`: no match can start at this `<` (the class needs ≥ 1 char)
          c :: stripTagsCore fuel rest
        else
          stripTagsCore fuel (rest.drop (j + 1))
      | none => c :: stripTagsCore fuel rest
    else
      c :: stripTagsCore fuel rest

/-- Each `stripTagsCore` step consumes at least one character, so the input
length is enough fuel. -/
def stripTags (l : List Char) : List Char :=
  stripTagsCore l.length l

/-- Global replace of the regex `\s+` with `'-'`: each maximal whitespace run becomes
a single hyphen.  The flag records whether we are inside an already-replaced
run. -/
def collapseWsAux : Bool → List Char → List Char
  | _, [] => []
  | inRun, c :: rest =>
    if isJsSpace c then
      if inRun then collapseWsAux true rest
      else '-' :: collapseWsAux true rest
    else
      c :: collapseWsAux false rest

def collapseWs (l : List Char) : List Char :=
  collapseWsAux false l

/-- Global replace of the regex `-+` with `'-'`. -/
def collapseHyAux : Bool → List Char → List Char
  | _, [] => []
  | inRun, c :: rest =>
    if c == '-' then
      if inRun then collapseHyAux true rest
      else '-' :: collapseHyAux true rest
    else
      c :: collapseHyAux false rest

def collapseHy (l : List Char) : List Char :=
  collapseHyAux false l

/-- Global replace of the regex `^-+|-+$` with `''`: drop leading and
trailing hyphens. -/
def trimHyphens (l : List Char) : List Char :=
  ((l.dropWhile (· == '-')).reverse.dropWhile (· == '-')).reverse

/-- The normalization pipeline of `generateSlug` before the length checks:
trim, strip HTML tags, remove the three character classes, collapse
whitespace runs to hyphens, collapse hyphen runs, trim hyphens. -/
def normalizeSlugText (text : String) : List Char :=
  let s := stripTags (jsTrim text.toList)
  let s := s.filter (fun c => !isQuoteChar c)
  let s := s.filter (fun c => !isPunctChar c)
  let s := s.filter (fun c => !isSymbolChar c)
  trimHyphens (collapseHy (collapseWs s))

/-- The fallback token built when the normalized slug is empty or shorter
than 3 characters: `` `लेख-${Math.abs(hash).toString(36).substring(0, 8)}` ``. -/
def fallbackSlug (text : String) : List Char :=
  "लेख-".toList ++ ((toBase36 (jsHash text.toList).natAbs).toList.take 8)

/-- `generateSlug` (src/utils/slugGenerator.js).  `if (!text) return ''`
fires exactly on the empty string; `!slug || slug.length < 3` is equivalent
to `slug.length < 3`. -/
def generateSlug (text : String) : String :=
  if text = "" then ""
  else
    let slug := normalizeSlugText text
    let slug := if slug.length < 3 then fallbackSlug text else slug
    let slug :=
      if slug.length > 100 then trimHyphens (slug.take 100) else slug
    String.mk slug

example : generateSlug "hello" = "hello" := by decide
example : generateSlug "" = "" := by decide
example : generateSlug "  Hello   World!! " = "Hello-World" := by decide
example : normalizeSlugText "<b>xyz</b>" = ['x', 'y', 'z'] := by decide

/-! ## `generateUniqueSlug` (src/utils/slugGenerator.js)

The persistence layer is modelled as the list of rows the
`Model.findOne({slug, _id: {$ne: excludeId}})` probe can see: each row has a
database `_id` and a `slug`.  The store is fixed for the whole probe loop
(no concurrent writers), and `Date.now()` is a parameter `now`. -/

structure SlugEntity where
  oid : String
  slug : String
deriving DecidableEq

/-- `await Model.findOne(query) !== null` for the query
`{ slug: s }` plus, when `excludeId` is set, `_id: { $ne: excludeId }`. -/
def slugTaken (store : List SlugEntity) (s : String)
    (excludeId : Option String) : Bool :=
  store.any fun e =>
    e.slug == s &&
      (match excludeId with
       | some i => e.oid != i
       | none => true)

/-- The `while (true)` probe loop of `generateUniqueSlug`.  The JS loop runs
at most 1000 iterations (`counter` starts at 1 and the loop breaks once
`counter > 1000`), so a fuel of `1000` makes the recursion structural without
changing behavior. -/
def uniqueSlugLoop (store : List SlugEntity) (base : String)
    (excl : Option String) (now : ℕ) :
    ℕ → ℕ → String → String
  | 0, _, u => u
  | fuel + 1, counter, u =>
    if slugTaken store u excl then
      if 1000 < counter + 1 then base ++ "-" ++ toString now
      else
        uniqueSlugLoop store base excl now fuel (counter + 1)
          (base ++ "-" ++ toString counter)
    else u

/-- `generateUniqueSlug(Model, text, excludeId)`, with `Date.now()`
as the parameter `now`. -/
def generateUniqueSlug (store : List SlugEntity) (text : String)
    (excl : Option String) (now : ℕ) : String :=
  let base := generateSlug text
  uniqueSlugLoop store base excl now 1000 1 base

/-- The slug probed on the `k`-th iteration (`k = 0`: the base slug itself;
`k ≥ 1`: `` `${slug}-${k}` ``). -/
def probeSlug (base : String) (k : ℕ) : String :=
  if k = 0 then base else base ++ "-" ++ toString k

/-- Characterization of the probe loop, viewed from probe index `k`
(the loop call with `counter = k + 1`, fuel `1000 - k`, current probe
`probeSlug base k`): either some probe in `[k, 999]` is free and the first
free one is returned, or all of them are taken and the timestamped slug is
returned. -/
theorem uniqueSlugLoop_probe_spec (store : List SlugEntity) (base : String)
    (excl : Option String) (now : ℕ) :
    ∀ k, k ≤ 999 →
      (∃ m, k ≤ m ∧ m ≤ 999 ∧
          slugTaken store (probeSlug base m) excl = false ∧
          (∀ j, k ≤ j → j < m → slugTaken store (probeSlug base j) excl = true) ∧
          uniqueSlugLoop store base excl now (1000 - k) (k + 1)
              (probeSlug base k) = probeSlug base m) ∨
      ((∀ j, k ≤ j → j ≤ 999 → slugTaken store (probeSlug base j) excl = true) ∧
        uniqueSlugLoop store base excl now (1000 - k) (k + 1)
            (probeSlug base k) = base ++ "-" ++ toString now) := by
  suffices h : ∀ d k, k ≤ 999 → 999 - k = d →
      (∃ m, k ≤ m ∧ m ≤ 999 ∧
          slugTaken store (probeSlug base m) excl = false ∧
          (∀ j, k ≤ j → j < m → slugTaken store (probeSlug base j) excl = true) ∧
          uniqueSlugLoop store base excl now (1000 - k) (k + 1)
              (probeSlug base k) = probeSlug base m) ∨
      ((∀ j, k ≤ j → j ≤ 999 → slugTaken store (probeSlug base j) excl = true) ∧
        uniqueSlugLoop store base excl now (1000 - k) (k + 1)
            (probeSlug base k) = base ++ "-" ++ toString now) by
    intro k hk
    exact h (999 - k) k hk rfl
  intro d
  induction d with
  | zero =>
    intro k hk hd
    have hk999 : k = 999 := by omega
    subst hk999
    by_cases htaken : slugTaken store (probeSlug base 999) excl
    · right
      refine ⟨?_, ?_⟩
      · intro j hj hj'
        have : j = 999 := by omega
        subst this; exact htaken
      · show uniqueSlugLoop store base excl now 1 1000 (probeSlug base 999) = _
        simp [uniqueSlugLoop, htaken]
    · left
      refine ⟨999, le_refl _, le_refl _, by simpa using htaken, ?_, ?_⟩
      · intro j hj hj'; omega
      · show uniqueSlugLoop store base excl now 1 1000 (probeSlug base 999) = _
        simp [uniqueSlugLoop, htaken]
  | succ d ih =>
    intro k hk hd
    have hklt : k < 999 := by omega
    by_cases htaken : slugTaken store (probeSlug base k) excl
    · -- this probe collides; the loop moves on to probe `k + 1`
      have hstep :
          uniqueSlugLoop store base excl now (1000 - k) (k + 1)
              (probeSlug base k) =
            uniqueSlugLoop store base excl now (1000 - (k + 1)) (k + 1 + 1)
              (probeSlug base (k + 1)) := by
        have hfuel : 1000 - k = (1000 - (k + 1)) + 1 := by omega
        rw [hfuel]
        have hcnt : ¬ (1000 < k + 1 + 1) := by omega
        simp only [uniqueSlugLoop, htaken, if_true, hcnt, if_false]
        have : probeSlug base (k + 1) = base ++ "-" ++ toString (k + 1) := by
          simp [probeSlug]
        rw [this]
      have := ih (k + 1) (by omega) (by omega)
      rcases this with ⟨m, hm1, hm2, hfree, hprev, heq⟩ | ⟨hall, heq⟩
      · left
        refine ⟨m, by omega, hm2, hfree, ?_, by rw [hstep]; exact heq⟩
        intro j hj hj'
        rcases Nat.eq_or_lt_of_le hj with h | h
        · subst h; exact htaken
        · exact hprev j h hj'
      · right
        refine ⟨?_, by rw [hstep]; exact heq⟩
        intro j hj hj'
        rcases Nat.eq_or_lt_of_le hj with h | h
        · subst h; exact htaken
        · exact hall j h hj'
    · -- this probe is free: returned immediately
      left
      refine ⟨k, le_refl _, by omega, by simpa using htaken, ?_, ?_⟩
      · intro j hj hj'; omega
      · have hfuel : 1000 - k = (999 - k) + 1 := by omega
        rw [hfuel]
        simp [uniqueSlugLoop, htaken]

/-- Top-level characterization of `generateUniqueSlug`: the result is the
first free probe among `base, base-1, …, base-999`, or — when all 1000
probes collide — the base slug with the timestamp appended, without any
further uniqueness check. -/
theorem generateUniqueSlug_spec (store : List SlugEntity) (text : String)
    (excl : Option String) (now : ℕ) :
    (∃ m, m ≤ 999 ∧
        slugTaken store (probeSlug (generateSlug text) m) excl = false ∧
        (∀ j, j < m →
          slugTaken store (probeSlug (generateSlug text) j) excl = true) ∧
        generateUniqueSlug store text excl now =
          probeSlug (generateSlug text) m) ∨
    ((∀ j, j ≤ 999 →
        slugTaken store (probeSlug (generateSlug text) j) excl = true) ∧
      generateUniqueSlug store text excl now =
        generateSlug text ++ "-" ++ toString now) := by
  have h := uniqueSlugLoop_probe_spec store (generateSlug text) excl now 0
    (by omega)
  have hbase : probeSlug (generateSlug text) 0 = generateSlug text := by
    simp [probeSlug]
  rcases h with ⟨m, _, hm2, hfree, hprev, heq⟩ | ⟨hall, heq⟩
  · left
    refine ⟨m, hm2, hfree, fun j hj => hprev j (Nat.zero_le _) hj, ?_⟩
    show uniqueSlugLoop store (generateSlug text) excl now 1000 1
        (generateSlug text) = _
    rw [← hbase]
    exact heq
  · right
    refine ⟨fun j hj => hall j (Nat.zero_le _) hj, ?_⟩
    show uniqueSlugLoop store (generateSlug text) excl now 1000 1
        (generateSlug text) = _
    rw [← hbase]
    exact heq

/-! ## Claims C4 and C5: uniqueness and termination of `generateUniqueSlug` -/

/-- A store in which every probe `hello, hello-1, …, hello-999` is taken and
the timestamp fallback slug is itself already owned by another entity. -/
def collidingStore : List SlugEntity :=
  ⟨"deadbeef", "hello-1700000000000"⟩ ::
    (List.range 1000).map (fun k => ⟨toString k, probeSlug "hello" k⟩)

theorem collidingStore_all_taken :
    ∀ j, j ≤ 999 →
      slugTaken collidingStore (probeSlug "hello" j) none = true := by
  intro j hj
  apply List.any_eq_true.mpr
  refine ⟨⟨toString j, probeSlug "hello" j⟩, ?_, ?_⟩
  · exact List.mem_cons_of_mem _
      (List.mem_map_of_mem _ (List.mem_range.mpr (by omega)))
  · simp

/-- In `collidingStore` the probe loop exhausts its 1000-probe budget, so the
timestamped fallback is returned. -/
theorem collidingStore_result :
    generateUniqueSlug collidingStore "hello" none 1700000000000 =
      "hello-1700000000000" := by
  have hbase : generateSlug "hello" = "hello" := by decide
  rcases generateUniqueSlug_spec collidingStore "hello" none 1700000000000 with
    ⟨m, hm, hfree, _, _⟩ | ⟨_, heq⟩
  · rw [hbase] at hfree
    rw [collidingStore_all_taken m hm] at hfree
    exact absurd hfree (by simp)
  · rw [heq, hbase]
    decide

/-- C5: `generateUniqueSlug` terminates for every store state and input:
it probes the base slug, then `base-1`, `base-2`, … with increasing `N`,
returning the first free probe; after 1000 failed probes it stops probing
and returns the base slug with the current timestamp appended. -/
theorem C5_generateUniqueSlug_termination (store : List SlugEntity)
    (text : String) (excl : Option String) (now : ℕ) :
    (∃ m, m ≤ 999 ∧
        slugTaken store (probeSlug (generateSlug text) m) excl = false ∧
        (∀ j, j < m →
          slugTaken store (probeSlug (generateSlug text) j) excl = true) ∧
        generateUniqueSlug store text excl now =
          probeSlug (generateSlug text) m) ∨
    ((∀ j, j ≤ 999 →
        slugTaken store (probeSlug (generateSlug text) j) excl = true) ∧
      generateUniqueSlug store text excl now =
        generateSlug text ++ "-" ++ toString now) :=
  generateUniqueSlug_spec store text excl now

/-- C4 counterexample: in `collidingStore`, all 1000 probes fail and the
returned timestamped slug `hello-1700000000000` is itself already in use by
another entity, so the claim "the returned slug is never in use by a
different entity" is false as stated. -/
theorem C4_counterexample :
    slugTaken collidingStore
      (generateUniqueSlug collidingStore "hello" none 1700000000000)
      none = true := by
  rw [collidingStore_result]
  decide

/-- C4 (amended): whenever at least one of the 1000 probes
`base, base-1, …, base-999` is free, the slug returned by
`generateUniqueSlug` is not in use by any entity other than the one
identified by `excludeId`.  (Only the safety-limit fallback, which appends
the current timestamp after 1000 failed probes, is returned without a
uniqueness check.) -/
theorem C4_generateUniqueSlug_unused (store : List SlugEntity)
    (text : String) (excl : Option String) (now : ℕ)
    (hfree : ∃ m, m ≤ 999 ∧
      slugTaken store (probeSlug (generateSlug text) m) excl = false) :
    slugTaken store (generateUniqueSlug store text excl now) excl = false := by
  rcases generateUniqueSlug_spec store text excl now with
    ⟨m, _, hfreem, _, heq⟩ | ⟨hall, _⟩
  · rw [heq]; exact hfreem
  · rcases hfree with ⟨m, hm, hfreem⟩
    rw [hall m hm] at hfreem
    exact absurd hfreem (by simp)

/-- C4 witness: a store owning only the base slug `hello` has probe
`hello-1` free, and the returned slug is indeed unused. -/
theorem C4_witness :
    (∃ m, m ≤ 999 ∧
      slugTaken [⟨"a", "hello"⟩] (probeSlug (generateSlug "hello") m)
        none = false) ∧
    slugTaken [⟨"a", "hello"⟩]
      (generateUniqueSlug [⟨"a", "hello"⟩] "hello" none 5) none = false :=
  ⟨⟨1, by decide, by decide⟩,
    C4_generateUniqueSlug_unused [⟨"a", "hello"⟩] "hello" none 5
      ⟨1, by decide, by decide⟩⟩

/-! ## Claim C6: fail-fast PDF page conversion
(`convertPDFToImages`, src/services/cloudinaryService.js)

The external per-page pipeline (`pdf.getPage`, `page.render`, canvas
`toBuffer`, `sharp` metadata + JPEG re-encode) is modelled as one oracle
`render : pageNum → Except e RenderedPage`; in the source any rejection of
any of those awaits propagates out of the `for` loop into the surrounding
`catch`, which rethrows wrapped in `Failed to convert PDF: `.  Image bytes
are modelled as an opaque number. -/

structure RenderedPage where
  imageBuffer : ℕ
  width : ℕ
  height : ℕ
deriving DecidableEq

structure PDFDoc where
  numPages : ℕ
  render : ℕ → Except String RenderedPage

structure ConvertedPage where
  pageNo : ℕ
  imageBuffer : ℕ
  width : ℕ
  height : ℕ
deriving DecidableEq

/-- The `for (let pageNum = 1; pageNum <= numPages; pageNum++)` loop:
`n` pages remain, the next one is `pageNum`; `acc` holds the pages pushed so
far (reversed). -/
def convertLoop (doc : PDFDoc) :
    ℕ → ℕ → List ConvertedPage → Except String (List ConvertedPage)
  | 0, _, acc => .ok acc.reverse
  | n + 1, pageNum, acc =>
    match doc.render pageNum with
    | .error e => .error e
    | .ok r =>
      convertLoop doc n (pageNum + 1)
        (⟨pageNum, r.imageBuffer, r.width, r.height⟩ :: acc)

/-- `convertPDFToImages`: run the page loop; any error is wrapped by the
`catch` block (`throw new Error('Failed to convert PDF: ' + error.message)`). -/
def convertPDFToImages (doc : PDFDoc) : Except String (List ConvertedPage) :=
  match convertLoop doc doc.numPages 1 [] with
  | .error e => .error ("Failed to convert PDF: " ++ e)
  | .ok l => .ok l

theorem convertLoop_ok (doc : PDFDoc) :
    ∀ n start acc l, convertLoop doc n start acc = .ok l →
      (∀ p, start ≤ p → p < start + n → ∃ r, doc.render p = .ok r) ∧
        l.length = n + acc.length := by
  intro n
  induction n with
  | zero =>
    intro start acc l h
    refine ⟨fun p hp hp' => absurd hp' (by omega), ?_⟩
    simp only [convertLoop] at h
    cases h
    simp
  | succ n ih =>
    intro start acc l h
    simp only [convertLoop] at h
    cases hr : doc.render start with
    | error e => rw [hr] at h; exact absurd h (by simp)
    | ok r =>
      rw [hr] at h
      have := ih (start + 1) _ l h
      refine ⟨fun p hp hp' => ?_, by have := this.2; simp at this ⊢; omega⟩
      rcases Nat.eq_or_lt_of_le hp with hp0 | hp0
      · exact ⟨r, hp0 ▸ hr⟩
      · exact this.1 p hp0 (by omega)

theorem convertLoop_err (doc : PDFDoc) :
    ∀ n start acc,
      (∃ p e, start ≤ p ∧ p < start + n ∧ doc.render p = .error e) →
      ∃ e, convertLoop doc n start acc = .error e := by
  intro n
  induction n with
  | zero =>
    intro start acc ⟨p, e, hp, hp', _⟩
    exact absurd hp' (by omega)
  | succ n ih =>
    intro start acc ⟨p, e, hp, hp', hfail⟩
    simp only [convertLoop]
    cases hr : doc.render start with
    | error e' => exact ⟨e', rfl⟩
    | ok r =>
      apply ih (start + 1)
      refine ⟨p, e, ?_, by omega, hfail⟩
      rcases Nat.eq_or_lt_of_le hp with hp0 | hp0
      · rw [hp0] at hr; rw [hr] at hfail; exact absurd hfail (by simp)
      · omega

/-- C6: the page loop is fail-fast.  If any page in `1..numPages` fails to
render, the whole conversion returns an error (wrapped by the catch block)
and no partial page list; and a page list is returned only when every page
rendered successfully, in which case it has exactly one entry per page. -/
theorem C6_convertPDFToImages_fail_fast (doc : PDFDoc) :
    ((∃ p e, 1 ≤ p ∧ p ≤ doc.numPages ∧ doc.render p = .error e) →
      ∃ msg, convertPDFToImages doc = .error msg) ∧
    (∀ l, convertPDFToImages doc = .ok l →
      (∀ p, 1 ≤ p → p ≤ doc.numPages → ∃ r, doc.render p = .ok r) ∧
        l.length = doc.numPages) := by
  constructor
  · rintro ⟨p, e, hp, hp', hfail⟩
    have := convertLoop_err doc doc.numPages 1 []
      ⟨p, e, hp, by omega, hfail⟩
    rcases this with ⟨e', he'⟩
    exact ⟨"Failed to convert PDF: " ++ e', by simp [convertPDFToImages, he']⟩
  · intro l h
    simp only [convertPDFToImages] at h
    cases hl : convertLoop doc doc.numPages 1 [] with
    | error e => rw [hl] at h; exact absurd h (by simp)
    | ok l₀ =>
      rw [hl] at h
      simp only [Except.ok.injEq] at h
      subst h
      have := convertLoop_ok doc doc.numPages 1 [] l₀ hl
      exact ⟨fun p hp hp' => this.1 p hp (by omega), by simpa using this.2⟩

/-- A 2-page document whose second page fails to render. -/
def badDoc : PDFDoc :=
  ⟨2, fun p => if p = 1 then .ok ⟨7, 100, 200⟩ else .error "boom"⟩

/-- C6 witness: on `badDoc` the failing page 2 makes the whole conversion
fail (no partial result), exactly as the theorem's first part states. -/
theorem C6_witness :
    (∃ p e, 1 ≤ p ∧ p ≤ badDoc.numPages ∧ badDoc.render p = .error e) ∧
      (∃ msg, convertPDFToImages badDoc = .error msg) :=
  ⟨⟨2, "boom", by decide, by decide, rfl⟩,
    (C6_convertPDFToImages_fail_fast badDoc).1
      ⟨2, "boom", by decide, by decide, rfl⟩⟩

/-! ## The update route `PUT /api/epapers/:id` (src/routes/epapers.js)

Request payload fields are modelled over the JSON-representable fragment:
a primitive field is a number (exact rational — JSON cannot encode the
IEEE specials `NaN`/`Infinity`), a string, `null`, or absent
(`undefined`).  Free-text fields (`title`, `content`, `articleId`) are
modelled as string-or-absent, which is the domain the route's `String(…)`
and truthiness coercions see from the admin client. -/

inductive JVal where
  | num (q : ℚ)
  | str (s : String)
  | nullv
  | undef
deriving DecidableEq

/-- JS truthiness on the modelled fragment. -/
def JVal.truthy : JVal → Bool
  | .num q => q ≠ 0
  | .str s => s ≠ ""
  | .nullv => false
  | .undef => false

def isDecDigit (c : Char) : Bool := '0' ≤ c && c ≤ '9'

def isHexDigit (c : Char) : Bool :=
  isDecDigit c || ('a' ≤ c && c ≤ 'f') || ('A' ≤ c && c ≤ 'F')

def decDigitVal (c : Char) : ℕ := c.toNat - 48

def hexDigitVal (c : Char) : ℕ :=
  if isDecDigit c then c.toNat - 48
  else if 'a' ≤ c && c ≤ 'f' then c.toNat - 87
  else c.toNat - 55

def digitsVal (base : ℕ) (f : Char → ℕ) (ds : List Char) : ℕ :=
  ds.foldl (fun a c => a * base + f c) 0

/-- JS `parseInt(s)` (radix unspecified): skip whitespace, optional sign,
then a `0x`-prefixed hex literal or a run of decimal digits; `none` models
`NaN`. -/
def parseIntJs (s : String) : Option ℤ :=
  let l := s.toList.dropWhile isJsSpace
  let signed : ℤ × List Char :=
    match l with
    | '-' :: t => (-1, t)
    | '+' :: t => (1, t)
    | _ => (1, l)
  let sign := signed.1
  let l := signed.2
  match l with
  | '0' :: 'x' :: t =>
    let hs := t.takeWhile isHexDigit
    if hs = [] then none else some (sign * digitsVal 16 hexDigitVal hs)
  | '0' :: 'X' :: t =>
    let hs := t.takeWhile isHexDigit
    if hs = [] then none else some (sign * digitsVal 16 hexDigitVal hs)
  | _ =>
    let ds := l.takeWhile isDecDigit
    if ds = [] then none else some (sign * digitsVal 10 decDigitVal ds)

/-- JS `parseFloat(s)`: skip whitespace, optional sign, decimal digits with
optional fraction and exponent; `none` models `NaN`.  (The `Infinity`
literal, which has no rational value, is also folded into `none`; no claim
depends on it.) -/
def parseFloatJs (s : String) : Option ℚ :=
  let l := s.toList.dropWhile isJsSpace
  let signed : ℚ × List Char :=
    match l with
    | '-' :: t => (-1, t)
    | '+' :: t => (1, t)
    | _ => (1, l)
  let sign := signed.1
  let l := signed.2
  let ip := l.takeWhile isDecDigit
  let l1 := l.drop ip.length
  let fracRest : List Char × List Char :=
    match l1 with
    | '.' :: t => (t.takeWhile isDecDigit, t.drop (t.takeWhile isDecDigit).length)
    | _ => ([], l1)
  let fp := fracRest.1
  let l2 := fracRest.2
  if ip = [] ∧ fp = [] then none
  else
    let mant : ℚ :=
      (digitsVal 10 decDigitVal ip : ℚ) +
        (digitsVal 10 decDigitVal fp : ℚ) / ((10 : ℚ) ^ fp.length)
    let exp : ℤ :=
      match l2 with
      | 'e' :: t => parseExp t
      | 'E' :: t => parseExp t
      | _ => 0
    some (sign * mant * (10 : ℚ) ^ exp)
where
  /-- Exponent part after `e`/`E`: optional sign plus digits; an invalid
  exponent is ignored (JS stops parsing before the `e`). -/
  parseExp (t : List Char) : ℤ :=
    let signed : ℤ × List Char :=
      match t with
      | '-' :: r => (-1, r)
      | '+' :: r => (1, r)
      | _ => (1, t)
    let ds := signed.2.takeWhile isDecDigit
    if ds = [] then 0 else signed.1 * digitsVal 10 decDigitVal ds

/-- `typeof v === 'number' ? v : parseInt(v) || dflt` — the route's page
numeric coercion (`parseInt` of `null`/`undefined` stringifies to a
non-numeric word, hence `NaN`; `|| dflt` also replaces a parsed `0`). -/
def coerceIntOr (v : JVal) (dflt : ℚ) : ℚ :=
  match v with
  | .num q => q
  | .str s =>
    match parseIntJs s with
    | some n => if n = 0 then dflt else (n : ℚ)
    | none => dflt
  | _ => dflt

/-- `typeof v === 'number' ? v : (v ? parseFloat(v) : 0)` — the route's
section coordinate coercion; `none` models a `NaN` result. -/
def coerceFloat (v : JVal) : Option ℚ :=
  match v with
  | .num q => some q
  | .str s => if s = "" then some 0 else parseFloatJs s
  | _ => some 0

/-- `typeof id === 'number' ? id : (id ? parseInt(id) : Date.now() + idx)`. -/
def coerceNewsId (v : JVal) (now idx : ℕ) : Option ℚ :=
  match v with
  | .num q => some q
  | .str s =>
    if s = "" then some ((now + idx : ℕ) : ℚ)
    else (parseIntJs s).map fun n => (n : ℚ)
  | _ => some ((now + idx : ℕ) : ℚ)

/-- Truthy-or on an optional string field (`a || b`). -/
def strOr (a : Option String) (b : String) : String :=
  match a with
  | some s => if s = "" then b else s
  | none => b

/-- Truthy-or chain ending in `null` (`a || b || null`). -/
def strOrNull (a b : Option String) : Option String :=
  match a with
  | some s => if s = "" then (match b with
      | some s' => if s' = "" then none else some s'
      | none => none)
    else some s
  | none =>
    match b with
    | some s' => if s' = "" then none else some s'
    | none => none

/-- A section (news item) as it arrives in the `PUT` payload. -/
structure RawNews where
  id : JVal
  x : JVal
  y : JVal
  width : JVal
  height : JVal
  title : Option String
  content : Option String
  articleId : Option String
deriving DecidableEq

/-- A page as it arrives in the `PUT` payload; `news = none` models a
missing/non-array `news` field.  A `null` entry in the pages array is
modelled as `Option.none` at the call site (`if (!page) return null`). -/
structure RawPage where
  pageNo : JVal
  image : Option String
  imageUrl : Option String
  thumbnail : Option String
  thumbnailUrl : Option String
  width : JVal
  height : JVal
  news : Option (List RawNews)
deriving DecidableEq

/-- A stored section.  `Option ℚ` fields use `none` for a `NaN` produced by
a failed `parseInt`/`parseFloat` on a truthy string; `slug = ""` models an
absent slug (the update route's cleaning emits no `slug` key). -/
structure NewsItem where
  id : Option ℚ
  x : Option ℚ
  y : Option ℚ
  width : Option ℚ
  height : Option ℚ
  title : String
  content : String
  articleId : Option String
  slug : String
deriving DecidableEq

/-- A stored page of an edition. -/
structure Page where
  pageNo : ℚ
  image : String
  thumbnail : Option String
  width : ℚ
  height : ℚ
  news : List NewsItem
deriving DecidableEq

/-- `cleanedNews` for one payload section (`idx` is its array index,
`now` is `Date.now()`).  After building the record the route re-checks
`!title || title.trim() === ''` and substitutes `'Untitled'`. -/
def cleanNews (now idx : ℕ) (n : RawNews) : NewsItem :=
  let title0 := strOr n.title "Untitled"
  { id := coerceNewsId n.id now idx
    x := coerceFloat n.x
    y := coerceFloat n.y
    width := coerceFloat n.width
    height := coerceFloat n.height
    title := if jsTrim title0.toList = [] then "Untitled" else title0
    content := strOr n.content ""
    articleId :=
      match n.articleId with
      | some s => if s = "" then none else some s
      | none => none
    slug := "" }

/-- `cleanedPage` for one payload entry: `null` entries map to `none`;
a page whose coerced image is empty or whose coerced width/height is not
positive is rejected (`return null`). -/
def cleanPage (now : ℕ) : Option RawPage → Option Page
  | none => none
  | some p =>
    let image := strOr p.image (strOr p.imageUrl "")
    let width := coerceIntOr p.width 0
    let height := coerceIntOr p.height 0
    let page : Page :=
      { pageNo := coerceIntOr p.pageNo 1
        image := image
        thumbnail := strOrNull p.thumbnail p.thumbnailUrl
        width := width
        height := height
        news :=
          match p.news with
          | some l => l.enum.map fun ni => cleanNews now ni.1 ni.2
          | none => [] }
    if image = "" ∨ width ≤ 0 ∨ height ≤ 0 then none else some page

/-- `pages.map(clean).filter(page => page !== null)`. -/
def cleanPages (now : ℕ) (ps : List (Option RawPage)) : List Page :=
  (ps.map (cleanPage now)).reduceOption

/-- The stored edition aggregate (the fields the update route touches). -/
structure Epaper where
  oid : String
  numId : ℤ
  title : String
  slug : String
  date : ℤ
  status : String
  pages : List Page
  updatedAt : ℤ
deriving DecidableEq

/-- The `date` field of the body after `new Date(…)`: a valid instant or an
invalid date. -/
inductive JDate where
  | valid (t : ℤ)
  | invalid
deriving DecidableEq

/-- The `pages` field of the body when present: a JSON array (whose entries
may be `null`) or some non-array value. -/
inductive PagesVal where
  | arr (ps : List (Option RawPage))
  | notArray
deriving DecidableEq

/-- The `PUT` request body, `{ title, date, pages, status }`; `none` means
the key is absent (`undefined`). -/
structure UpdateBody where
  title : Option String
  date : Option JDate
  pages : Option PagesVal
  status : Option String
deriving DecidableEq

/-- The in-place mutation of an existing edition performed by the update
route (the `else` branch of `PUT /api/epapers/:id`): conditional scalar
updates, the pages cleaning with the "keep existing pages when nothing
survives cleaning" guard, the status enum check, and the `updatedAt`
refresh.  `now` feeds both `Date.now()` (section id synthesis) and
`new Date()` (the `updatedAt` refresh). -/
def updateExisting (ep : Epaper) (b : UpdateBody) (now : ℕ) : Epaper :=
  let ep :=
    match b.title with
    | some t => { ep with title := t }
    | none => ep
  let ep :=
    match b.date with
    | some (.valid t) => { ep with date := t }
    | some .invalid => ep
    | none => ep
  let ep :=
    match b.pages with
    | some (.arr ps) =>
      let cleaned := cleanPages now ps
      if 0 < cleaned.length then { ep with pages := cleaned } else ep
    | some .notArray => ep
    | none => ep
  let ep :=
    match b.status with
    | some st =>
      if st = "draft" ∨ st = "published" ∨ st = "archived" then
        { ep with status := st }
      else ep
    | none => ep
  { ep with updatedAt := (now : ℤ) }

/-- The mongoose `required` checks (`validateSync`/`save`) that the
modelled mutation can actually violate: a non-empty title and a non-empty
image URL on every stored page.  (All other required paths are present by
construction in this model.) -/
def epValid (ep : Epaper) : Bool :=
  ep.title ≠ "" && ep.pages.all fun p => p.image ≠ ""

/-- Outcome of `PUT /api/epapers/:id` on an existing edition: the mutated
document when validation passes (HTTP 200 with the saved edition),
otherwise a 400 validation error and no write. -/
def putUpdateExisting (ep : Epaper) (b : UpdateBody) (now : ℕ) :
    Except String Epaper :=
  let ep' := updateExisting ep b now
  if epValid ep' then .ok ep' else .error "Validation failed"

/-! ## Claims C2, C3, C7: update semantics of `PUT /api/epapers/:id` -/

/-- Fixture data used by the concrete counterexamples and witnesses. -/
def newsA : NewsItem :=
  ⟨some 1, some 0, some 0, some 10, some 10, "headline", "", none, "headline"⟩

def pageA : Page := ⟨1, "https://cdn/img-p1.jpg", none, 800, 1000, [newsA]⟩

def pageB : Page := ⟨2, "https://cdn/img-p2.jpg", none, 800, 1000, []⟩

def pageC : Page := ⟨3, "https://cdn/img-p3.jpg", none, 800, 1000, []⟩

def ep0 : Epaper :=
  ⟨"oid1", 42, "sample", "sample", 0, "published", [pageA, pageB, pageC], 0⟩

theorem updateExisting_pages_of_no_pages (ep : Epaper) (t : Option String)
    (d : Option JDate) (st : Option String) (now : ℕ) :
    (updateExisting ep ⟨t, d, none, st⟩ now).pages = ep.pages := by
  rcases t with _ | t <;>
    rcases d with _ | (td | _) <;>
      rcases st with _ | st <;>
        simp only [updateExisting] <;> (try split_ifs) <;> rfl

/-- C3: a body carrying any subset of the scalar fields (title/date/status)
and no `pages` key leaves the stored pages array completely unchanged —
both in the mutated document and in any successful outcome of the route. -/
theorem C3_scalar_update_preserves_pages (ep : Epaper) (t : Option String)
    (d : Option JDate) (st : Option String) (now : ℕ) :
    (updateExisting ep ⟨t, d, none, st⟩ now).pages = ep.pages ∧
    ∀ e', putUpdateExisting ep ⟨t, d, none, st⟩ now = .ok e' →
      e'.pages = ep.pages := by
  refine ⟨updateExisting_pages_of_no_pages ep t d st now, fun e' he' => ?_⟩
  simp only [putUpdateExisting] at he'
  split_ifs at he' with hv
  simp only [Except.ok.injEq] at he'
  rw [← he']
  exact updateExisting_pages_of_no_pages ep t d st now

/-- C3 witness: `PUT {status: "archived"}` on the 3-page `ep0` succeeds and
leaves all 3 pages untouched. -/
theorem C3_witness :
    (updateExisting ep0 ⟨none, none, none, some "archived"⟩ 9).pages =
        ep0.pages ∧
      putUpdateExisting ep0 ⟨none, none, none, some "archived"⟩ 9 =
        .ok (updateExisting ep0 ⟨none, none, none, some "archived"⟩ 9) ∧
      ep0.pages.length = 3 :=
  ⟨(C3_scalar_update_preserves_pages ep0 none none (some "archived") 9).1,
    rfl, by decide⟩

theorem updateExisting_pages_of_arr (ep : Epaper) (t : Option String)
    (d : Option JDate) (st : Option String) (now : ℕ)
    (ps : List (Option RawPage)) (hne : cleanPages now ps ≠ []) :
    (updateExisting ep ⟨t, d, some (.arr ps), st⟩ now).pages =
      cleanPages now ps := by
  have hlen : 0 < (cleanPages now ps).length := List.length_pos.mpr hne
  rcases t with _ | t <;>
    rcases d with _ | (td | _) <;>
      rcases st with _ | st <;>
        simp only [updateExisting, hlen, if_true] <;> (try split_ifs) <;> rfl

/-- C2 (amended): supplying a `pages` array whose cleaned form is
*non-empty* really is a whole-array replacement — afterwards the stored
pages are exactly the normalized supplied array, and everything omitted
from the payload is gone.  (The counterexample shows the guard:
a supplied array that cleans to empty is ignored and the old pages are
kept.) -/
theorem C2_pages_whole_array_replace (ep : Epaper) (t : Option String)
    (d : Option JDate) (st : Option String) (now : ℕ)
    (ps : List (Option RawPage)) (hne : cleanPages now ps ≠ []) :
    (updateExisting ep ⟨t, d, some (.arr ps), st⟩ now).pages =
        cleanPages now ps ∧
      ∀ e', putUpdateExisting ep ⟨t, d, some (.arr ps), st⟩ now = .ok e' →
        e'.pages = cleanPages now ps := by
  refine ⟨updateExisting_pages_of_arr ep t d st now ps hne, fun e' he' => ?_⟩
  simp only [putUpdateExisting] at he'
  split_ifs at he' with hv
  simp only [Except.ok.injEq] at he'
  rw [← he']
  exact updateExisting_pages_of_arr ep t d st now ps hne

/-- A valid raw payload page (cleans to a real page). -/
def rawGood : RawPage :=
  ⟨.num 1, some "https://cdn/new-p1.jpg", none, none, none, .num 700,
    .num 900, some []⟩

/-- C2 witness: replacing `ep0`'s 3 pages by a 1-page payload leaves
exactly the normalized supplied array. -/
theorem C2_witness :
    cleanPages 7 [some rawGood] ≠ [] ∧
      (updateExisting ep0 ⟨none, none, some (.arr [some rawGood]), none⟩
          7).pages = cleanPages 7 [some rawGood] :=
  ⟨by decide,
    (C2_pages_whole_array_replace ep0 none none none 7 [some rawGood]
        (by decide)).1⟩

/-- C2 counterexample: `PUT {pages: []}` on `ep0` *succeeds* yet keeps the
old pages — the persisted list is not the (empty) normalized supplied
array, so the update is not unconditionally a whole-array replacement. -/
theorem C2_counterexample :
    putUpdateExisting ep0 ⟨none, none, some (.arr []), none⟩ 7 =
        .ok (updateExisting ep0 ⟨none, none, some (.arr []), none⟩ 7) ∧
      cleanPages 7 [] = [] ∧
      (updateExisting ep0 ⟨none, none, some (.arr []), none⟩ 7).pages =
        ep0.pages ∧
      ep0.pages ≠ [] := by
  exact ⟨rfl, rfl, rfl, by decide⟩

/-- The route's page rejection test, on the *coerced* values: missing/empty
image reference, or non-positive width/height
(`!cleanedPage.image || cleanedPage.width <= 0 || cleanedPage.height <= 0`). -/
def pageDropped (p : RawPage) : Prop :=
  strOr p.image (strOr p.imageUrl "") = "" ∨
    coerceIntOr p.width 0 ≤ 0 ∨ coerceIntOr p.height 0 ≤ 0

instance (p : RawPage) : Decidable (pageDropped p) := by
  unfold pageDropped
  infer_instance

theorem cleanPage_eq_none_of_dropped (now : ℕ) (p : RawPage)
    (h : pageDropped p) : cleanPage now (some p) = none := by
  simp only [cleanPage]
  exact if_pos h

theorem cleanPages_drop (now : ℕ) (ps₁ ps₂ : List (Option RawPage))
    (p : RawPage) (h : pageDropped p) :
    cleanPages now (ps₁ ++ some p :: ps₂) = cleanPages now (ps₁ ++ ps₂) := by
  simp only [cleanPages, List.map_append, List.map_cons,
    cleanPage_eq_none_of_dropped now p h, List.reduceOption_append,
    List.reduceOption_cons_of_none]

/-- C7: a supplied page whose coerced image reference is empty or whose
coerced width/height is not positive is silently dropped: it never reaches
the cleaned list, and the route's outcome is *identical* to the outcome for
the same payload without that page — in particular no error is reported for
it and success is unaffected. -/
theorem C7_invalid_pages_dropped_silently (ep : Epaper) (t : Option String)
    (d : Option JDate) (st : Option String) (now : ℕ)
    (ps₁ ps₂ : List (Option RawPage)) (p : RawPage) (hbad : pageDropped p) :
    cleanPage now (some p) = none ∧
    putUpdateExisting ep ⟨t, d, some (.arr (ps₁ ++ some p :: ps₂)), st⟩ now =
      putUpdateExisting ep ⟨t, d, some (.arr (ps₁ ++ ps₂)), st⟩ now := by
  refine ⟨cleanPage_eq_none_of_dropped now p hbad, ?_⟩
  have hupd :
      updateExisting ep ⟨t, d, some (.arr (ps₁ ++ some p :: ps₂)), st⟩ now =
        updateExisting ep ⟨t, d, some (.arr (ps₁ ++ ps₂)), st⟩ now := by
    simp only [updateExisting, cleanPages_drop now ps₁ ps₂ p hbad]
  simp only [putUpdateExisting, hupd]

/-- An invalid raw payload page: empty image reference (and zero
dimensions). -/
def rawBad : RawPage :=
  ⟨.num 2, some "", none, none, none, .num 0, .num 0, none⟩

/-- C7 witness: a payload containing the invalid `rawBad` next to the valid
`rawGood` behaves exactly like the payload with `rawGood` alone, and the
route still reports success. -/
theorem C7_witness :
    pageDropped rawBad ∧
      cleanPage 7 (some rawBad) = none ∧
      putUpdateExisting ep0
          ⟨none, none, some (.arr [some rawGood, some rawBad]), none⟩ 7 =
        putUpdateExisting ep0
          ⟨none, none, some (.arr [some rawGood]), none⟩ 7 ∧
      putUpdateExisting ep0
          ⟨none, none, some (.arr [some rawGood, some rawBad]), none⟩ 7 =
        .ok (updateExisting ep0
          ⟨none, none, some (.arr [some rawGood, some rawBad]), none⟩ 7) :=
  ⟨by decide,
    (C7_invalid_pages_dropped_silently ep0 none none none 7
        [some rawGood] [] rawBad (by decide)).1,
    (C7_invalid_pages_dropped_silently ep0 none none none 7
        [some rawGood] [] rawBad (by decide)).2,
    rfl⟩

/-! ## Claim C8: identifier resolution of `GET /api/epapers/:id`
(src/unnamed/part_013)

`mongoose.Types.ObjectId.isValid` accepts 24-character hex strings and any
12-character string (12 bytes); `!isNaN(id)` applies JS `Number` coercion
to the route parameter (trimmed; empty means 0; decimal/hex/octal/binary
literals and `Infinity`); the numeric lookup then uses `parseInt(id)`. -/

def isValidObjectId (s : String) : Bool :=
  s.length = 12 || (s.length = 24 && s.toList.all isHexDigit)

def isOctDigit (c : Char) : Bool := '0' ≤ c && c ≤ '7'

def isBinDigit (c : Char) : Bool := c == '0' || c == '1'

def radixOk (t : List Char) (dig : Char → Bool) : Bool :=
  !t.isEmpty && t.all dig

/-- Exponent tail of a JS decimal number literal. -/
def jsExpOk (t : List Char) : Bool :=
  let t' :=
    match t with
    | '+' :: r => r
    | '-' :: r => r
    | _ => t
  !t'.isEmpty && t'.all isDecDigit

/-- A full JS decimal number literal (after an optional sign), or
`Infinity`. -/
def jsNumCore (l : List Char) : Bool :=
  if l = "Infinity".toList then true
  else
    let ip := l.takeWhile isDecDigit
    let r1 := l.drop ip.length
    let fr : List Char × List Char :=
      match r1 with
      | '.' :: t => (t.takeWhile isDecDigit, t.drop (t.takeWhile isDecDigit).length)
      | _ => ([], r1)
    let fp := fr.1
    let r2 := fr.2
    if ip.isEmpty && fp.isEmpty then false
    else
      match r2 with
      | [] => true
      | 'e' :: t => jsExpOk t
      | 'E' :: t => jsExpOk t
      | _ => false

/-- `!isNaN(s)` for a string route parameter: JS `ToNumber` succeeds. -/
def jsIsNumericString (s : String) : Bool :=
  match jsTrim s.toList with
  | [] => true
  | '0' :: 'x' :: t => radixOk t isHexDigit
  | '0' :: 'X' :: t => radixOk t isHexDigit
  | '0' :: 'o' :: t => radixOk t isOctDigit
  | '0' :: 'O' :: t => radixOk t isOctDigit
  | '0' :: 'b' :: t => radixOk t isBinDigit
  | '0' :: 'B' :: t => radixOk t isBinDigit
  | '+' :: t => jsNumCore t
  | '-' :: t => jsNumCore t
  | l => jsNumCore l

/-- The numeric-id lookup `Epaper.findOne({ id: parseInt(id) })`;
a `NaN` id matches no row. -/
def findByNumericId (store : List Epaper) (s : String) : Option Epaper :=
  match parseIntJs s with
  | some v => store.find? fun e => e.numId == v
  | none => none

/-- `GET /api/epapers/:id` resolution: ObjectId-format check and
`findById`, else numeric-string check and `findOne({id})`, else
`findOne({slug})`. -/
def getEpaperById (store : List Epaper) (s : String) : Option Epaper :=
  if isValidObjectId s then store.find? fun e => e.oid == s
  else if jsIsNumericString s then findByNumericId store s
  else store.find? fun e => e.slug == s

/-- C8: the resolution order of the fetch-edition route is exactly:
database-native-id format check (native-id lookup), then numeric-string
check (public-numeric-id lookup), and only otherwise a slug lookup. -/
theorem C8_fetch_resolution_order (store : List Epaper) (s : String) :
    (isValidObjectId s = true →
      getEpaperById store s = store.find? fun e => e.oid == s) ∧
    (isValidObjectId s = false → jsIsNumericString s = true →
      getEpaperById store s = findByNumericId store s) ∧
    (isValidObjectId s = false → jsIsNumericString s = false →
      getEpaperById store s = store.find? fun e => e.slug == s) := by
  refine ⟨fun h1 => ?_, fun h1 h2 => ?_, fun h1 h2 => ?_⟩ <;>
    simp [getEpaperById, *]

/-- A store row for the C8 witness: 24-hex native id, numeric public id
123, slug `batmi-slug`. -/
def epB : Epaper :=
  ⟨"507f1f77bcf86cd799439011", 123, "shirshak", "batmi-slug", 0,
    "published", [], 0⟩

/-- C8 witness: a 24-hex id, a plain numeric id and a non-numeric slug each
take their own branch on a concrete store. -/
theorem C8_witness :
    getEpaperById [epB] "507f1f77bcf86cd799439011" =
        ([epB].find? fun e => e.oid == "507f1f77bcf86cd799439011") ∧
      getEpaperById [epB] "123" = findByNumericId [epB] "123" ∧
      getEpaperById [epB] "batmi-slug" =
        ([epB].find? fun e => e.slug == "batmi-slug") :=
  ⟨(C8_fetch_resolution_order [epB] "507f1f77bcf86cd799439011").1 (by decide),
    (C8_fetch_resolution_order [epB] "123").2.1 (by decide) (by decide),
    (C8_fetch_resolution_order [epB] "batmi-slug").2.2 (by decide) (by decide)⟩

/-! ## Claim C9: derived-crop-URL generation
(`getCroppedImageUrl`, src/utils/metaHtmlGenerator.js)

The in-repo URL builder splices `c_crop,w_…,h_…,x_…,y_…,q_60,f_jpg` after
the provider's `/image/upload/` segment; coordinates go through
`Math.round(section.coord || 0)` (the `|| 0` also covers an absent or `NaN`
stored coordinate, modelled by `Option.getD 0`). -/

/-- JS `Math.round`: round half toward positive infinity,
`⌊q + 1/2⌋`, written as an integer floor division so the kernel can
evaluate it (`jsRound_eq_floor` below shows the two agree). -/
def jsRound (q : ℚ) : ℤ := Int.ediv (2 * q.num + q.den) (2 * q.den)

theorem jsRound_eq_floor (q : ℚ) : jsRound q = ⌊q + 1 / 2⌋ := by
  have hden0 : ((2 * q.den : ℕ) : ℚ) ≠ 0 := by
    exact_mod_cast Nat.cast_ne_zero.mpr (by simp [q.den_nz])
  have hqd : q * (q.den : ℚ) = (q.num : ℚ) := by
    field_simp [Rat.num_div_den q]
  have hq : q + 1 / 2 =
      ((2 * q.num + (q.den : ℤ) : ℤ) : ℚ) / ((2 * q.den : ℕ) : ℚ) := by
    rw [eq_div_iff hden0]
    push_cast
    linear_combination 2 * hqd
  rw [hq, Rat.floor_intCast_div_natCast]
  show Int.ediv (2 * q.num + q.den) (2 * q.den) = _
  push_cast
  rfl

/-- `indexOf` of a substring over character lists. -/
def indexOfSub (pat : List Char) : List Char → ℕ → Option ℕ
  | [], i => if pat.isEmpty then some i else none
  | c :: rest, i =>
    if pat.isPrefixOf (c :: rest) then some i
    else indexOfSub pat rest (i + 1)

def containsSub (pat l : List Char) : Bool :=
  (indexOfSub pat l 0).isSome

/-- The crop transformation segment
`[c_crop, w_…, h_…, x_…, y_…, q_60, f_jpg].join(',')`. -/
def cropTransforms (sec : NewsItem) : String :=
  "c_crop,w_" ++ toString (jsRound (sec.width.getD 0)) ++
    ",h_" ++ toString (jsRound (sec.height.getD 0)) ++
    ",x_" ++ toString (jsRound (sec.x.getD 0)) ++
    ",y_" ++ toString (jsRound (sec.y.getD 0)) ++
    ",q_60,f_jpg"

/-- `getCroppedImageUrl(pageImageUrl, section)`. -/
def getCroppedImageUrl (pageImageUrl : String) (sect : Option NewsItem) :
    String :=
  if pageImageUrl = "" then pageImageUrl
  else
    match sect with
    | none => pageImageUrl
    | some sec =>
      let l := pageImageUrl.toList
      if !containsSub "cloudinary.com".toList l then pageImageUrl
      else
        match indexOfSub "/image/upload/".toList l 0 with
        | none => pageImageUrl
        | some i =>
          String.mk (l.take (i + 13)) ++ "/" ++ cropTransforms sec ++ "/" ++
            String.mk (l.drop (i + 14))

/-- C9: cropped-URL generation is a pure function of the page image URL and
the stored rectangle — sections agreeing on `x, y, width, height` produce
byte-identical URLs whatever their other fields — and, whenever the URL is
a cloudinary delivery URL, the crop box embedded in the output is exactly
the stored coordinates rounded to integers (`Math.round`). -/
theorem C9_cropped_url_pure_and_rounded (url : String) (s1 s2 : NewsItem)
    (hx : s1.x = s2.x) (hy : s1.y = s2.y) (hw : s1.width = s2.width)
    (hh : s1.height = s2.height) :
    getCroppedImageUrl url (some s1) = getCroppedImageUrl url (some s2) ∧
    ∀ i, url ≠ "" → containsSub "cloudinary.com".toList url.toList = true →
      indexOfSub "/image/upload/".toList url.toList 0 = some i →
      getCroppedImageUrl url (some s1) =
        String.mk (url.toList.take (i + 13)) ++ "/" ++
          ("c_crop,w_" ++ toString (jsRound (s1.width.getD 0)) ++
            ",h_" ++ toString (jsRound (s1.height.getD 0)) ++
            ",x_" ++ toString (jsRound (s1.x.getD 0)) ++
            ",y_" ++ toString (jsRound (s1.y.getD 0)) ++
            ",q_60,f_jpg") ++ "/" ++
          String.mk (url.toList.drop (i + 14)) := by
  constructor
  · simp only [getCroppedImageUrl, cropTransforms, hx, hy, hw, hh]
  · intro i hne hcloud hidx
    simp only [getCroppedImageUrl, cropTransforms, if_neg hne, hcloud,
      Bool.not_true, Bool.false_eq_true, if_false, hidx]

/-- Fixture for the C9 witness: fractional stored coordinates. -/
def secC9 : NewsItem :=
  ⟨some 5, some (mkRat 21 2), some (mkRat 61 3), some (mkRat 201 2),
    some (mkRat 251 5), "shirshak", "", none, ""⟩

/-- Same rectangle, different text fields. -/
def secC9' : NewsItem :=
  ⟨some 99, some (mkRat 21 2), some (mkRat 61 3), some (mkRat 201 2),
    some (mkRat 251 5), "other title", "body", some "a1", "slug-x"⟩

def urlC9 : String :=
  "https://res.cloudinary.com/demo/image/upload/v12/epapers/7/pages/page-1.jpg"

/-- C9 witness: the two sections with the same rectangle produce the same
URL, and the crop box in it is the rounded coordinates
(`x_11, y_20, w_101, h_50`). -/
theorem C9_witness :
    getCroppedImageUrl urlC9 (some secC9) =
        getCroppedImageUrl urlC9 (some secC9') ∧
      getCroppedImageUrl urlC9 (some secC9) =
        "https://res.cloudinary.com/demo/image/upload/c_crop,w_101,h_50,x_11,y_20,q_60,f_jpg/v12/epapers/7/pages/page-1.jpg" :=
  ⟨(C9_cropped_url_pure_and_rounded urlC9 secC9 secC9' rfl rfl rfl rfl).1,
    by decide⟩

/-! ## Claim C10: the `Epaper` pre-save hook (src/models/Epaper.js) -/

theorem dropWhile_head_false {p : Char → Bool} :
    ∀ (l : List Char) c t, l.dropWhile p = c :: t → p c = false := by
  intro l
  induction l with
  | nil => intro c t h; simp [List.dropWhile] at h
  | cons a l ih =>
    intro c t h
    by_cases hp : p a
    · rw [List.dropWhile_cons_of_pos hp] at h
      exact ih c t h
    · rw [List.dropWhile_cons_of_neg hp] at h
      cases h
      simpa using hp

/-- `trimHyphens` output is empty or starts with a non-hyphen. -/
theorem trimHyphens_shape (l : List Char) :
    trimHyphens l = [] ∨
      ∃ c t, trimHyphens l = c :: t ∧ (c == '-') = false := by
  have hdef : trimHyphens l =
      List.rdropWhile (· == '-') (l.dropWhile (· == '-')) := rfl
  cases hd : l.dropWhile (· == '-') with
  | nil => left; rw [hdef, hd]; simp
  | cons c t =>
    have hc : (c == '-') = false := dropWhile_head_false l c t hd
    have hne : List.rdropWhile (· == '-') (c :: t) ≠ [] := by
      intro hnil
      rw [List.rdropWhile_eq_nil_iff] at hnil
      have := hnil c (List.mem_cons_self c t)
      rw [hc] at this
      exact absurd this (by simp)
    have hpre : List.rdropWhile (· == '-') (c :: t) <+: c :: t :=
      List.rdropWhile_prefix _ _
    right
    cases hr : List.rdropWhile (· == '-') (c :: t) with
    | nil => exact absurd hr hne
    | cons c' t' =>
      rw [hr] at hpre
      obtain ⟨r, hr2⟩ := hpre
      have hcc : c' = c := by
        have := hr2
        simp only [List.cons_append] at this
        exact (List.cons.injEq _ _ _ _ ▸ this).1
      refine ⟨c, t', ?_, hc⟩
      rw [hdef, hd, hr, hcc]

/-- `trimHyphens` of a list starting with a non-hyphen is non-empty. -/
theorem trimHyphens_cons_ne_nil (c : Char) (t : List Char)
    (hc : (c == '-') = false) : trimHyphens (c :: t) ≠ [] := by
  have hdef : trimHyphens (c :: t) =
      List.rdropWhile (· == '-') ((c :: t).dropWhile (· == '-')) := rfl
  rw [hdef, List.dropWhile_cons_of_neg (by simpa using hc)]
  intro hnil
  rw [List.rdropWhile_eq_nil_iff] at hnil
  have := hnil c (List.mem_cons_self c t)
  rw [hc] at this
  exact absurd this (by simp)

theorem fallbackSlug_length (text : String) :
    0 < (fallbackSlug text).length ∧ (fallbackSlug text).length ≤ 12 := by
  simp only [fallbackSlug, List.length_append, List.length_take]
  have : ("लेख-".toList).length = 4 := by decide
  omega

/-- The non-empty-input branch of `generateSlug`, spelled out. -/
theorem generateSlug_eq (text : String) (h : text ≠ "") :
    generateSlug text =
      String.mk
        (if (if (normalizeSlugText text).length < 3 then fallbackSlug text
              else normalizeSlugText text).length > 100 then
          trimHyphens
            ((if (normalizeSlugText text).length < 3 then fallbackSlug text
              else normalizeSlugText text).take 100)
        else
          (if (normalizeSlugText text).length < 3 then fallbackSlug text
            else normalizeSlugText text)) := by
  rw [generateSlug, if_neg h]

/-- A non-empty input always produces a non-empty slug. -/
theorem generateSlug_ne_empty (text : String) (h : text ≠ "") :
    generateSlug text ≠ "" := by
  rw [generateSlug_eq text h]
  intro heq
  have hdata : ∀ l : List Char, String.mk l = "" → l = [] := by
    intro l hl
    have := congrArg String.data hl
    simpa using this
  have hnil := hdata _ heq
  by_cases h3 : (normalizeSlugText text).length < 3
  · rw [if_pos h3] at hnil
    have h12 := (fallbackSlug_length text).2
    have h0 := (fallbackSlug_length text).1
    rw [if_neg (by omega)] at hnil
    rw [hnil] at h0
    simp at h0
  · rw [if_neg h3] at hnil
    rcases trimHyphens_shape (collapseHy (collapseWs
        ((((stripTags (jsTrim text.toList)).filter
            (fun c => !isQuoteChar c)).filter
          (fun c => !isPunctChar c)).filter (fun c => !isSymbolChar c)))) with
      hsh | ⟨c, t, hsh, hc⟩
    · have : normalizeSlugText text = [] := hsh
      rw [this] at h3
      simp at h3
    · have hnorm : normalizeSlugText text = c :: t := hsh
      rw [hnorm] at hnil
      by_cases h100 : (c :: t).length > 100
      · rw [if_pos h100] at hnil
        have : (c :: t).take 100 = c :: t.take 99 := by
          rfl
        rw [this] at hnil
        exact trimHyphens_cons_ne_nil c (t.take 99) hc hnil
      · rw [if_neg h100] at hnil
        cases hnil

theorem append_ne_empty_left (a b : String) (h : a ≠ "") : a ++ b ≠ "" := by
  intro heq
  have hlen : (a ++ b).length = 0 := by rw [heq]; rfl
  rw [String.length_append] at hlen
  apply h
  have hdata : a.data.length = 0 := by
    have : a.length = a.data.length := rfl
    omega
  have : a.data = [] := List.length_eq_zero.mp hdata
  exact String.ext (by simpa using this)

/-- Whatever branch the probe loop ends in, the result extends the base
slug, so it is non-empty whenever the base slug is. -/
theorem generateUniqueSlug_ne_empty (store : List SlugEntity) (text : String)
    (excl : Option String) (now : ℕ) (h : generateSlug text ≠ "") :
    generateUniqueSlug store text excl now ≠ "" := by
  rcases generateUniqueSlug_spec store text excl now with
    ⟨m, _, _, _, heq⟩ | ⟨_, heq⟩
  · rw [heq]
    cases m with
    | zero => simpa [probeSlug] using h
    | succ k =>
      simp only [probeSlug, Nat.succ_ne_zero, if_false]
      exact append_ne_empty_left _ _ (append_ne_empty_left _ _ h)
  · rw [heq]
    exact append_ne_empty_left _ _ (append_ne_empty_left _ _ h)

/-- `newsItem.title || (newsItem.content ? newsItem.content.substring(0,100)
: '')` from the pre-save hook. -/
def sectionTextForSlug (n : NewsItem) : String :=
  if n.title ≠ "" then n.title
  else if n.content ≠ "" then String.mk (n.content.toList.take 100)
  else ""

/-- The per-section part of the pre-save hook: a section without a slug gets
one generated from its title/content text, when there is any. -/
def preSaveNews (n : NewsItem) : NewsItem :=
  if n.slug = "" then
    if sectionTextForSlug n ≠ "" then
      { n with slug := generateSlug (sectionTextForSlug n) }
    else n
  else n

/-- The `epaperSchema.pre('save')` hook: refresh `updatedAt`, assign a
unique slug from the title when the slug is absent and the title non-empty,
and give every slug-less section with text a generated slug.  `store` is
the slug table seen by `generateUniqueSlug`, `tnow` its `Date.now()`. -/
def preSave (ep : Epaper) (store : List SlugEntity) (now : ℤ) (tnow : ℕ) :
    Epaper :=
  let ep1 := { ep with updatedAt := now }
  let ep2 :=
    if ep1.slug = "" ∧ ep1.title ≠ "" then
      { ep1 with slug := generateUniqueSlug store ep1.title (some ep1.oid) tnow }
    else ep1
  { ep2 with pages := ep2.pages.map fun p => { p with news := p.news.map preSaveNews } }

theorem preSaveNews_title (n : NewsItem) : (preSaveNews n).title = n.title := by
  unfold preSaveNews
  split_ifs <;> rfl

theorem preSaveNews_content (n : NewsItem) :
    (preSaveNews n).content = n.content := by
  unfold preSaveNews
  split_ifs <;> rfl

theorem preSaveNews_slug_ne (n : NewsItem)
    (h : n.title ≠ "" ∨ n.content ≠ "") : (preSaveNews n).slug ≠ "" := by
  unfold preSaveNews
  by_cases hs : n.slug = ""
  · rw [if_pos hs]
    have ht : sectionTextForSlug n ≠ "" := by
      unfold sectionTextForSlug
      by_cases h1 : n.title ≠ ""
      · rw [if_pos h1]; exact h1
      · rcases h with h | h
        · exact absurd h h1
        · rw [if_neg h1, if_pos h]
          intro heq
          have hdat := congrArg String.data heq
          simp only [String.data] at hdat
          have htake : n.content.toList.take 100 = [] := by
            simpa using hdat
          rcases List.take_eq_nil_iff.mp htake with h100 | hnil
          · simp at h100
          · apply h
            apply String.ext
            simpa using hnil
    rw [if_pos ht]
    exact generateSlug_ne_empty _ ht
  · rw [if_neg hs]
    exact hs

theorem preSave_updatedAt (ep : Epaper) (store : List SlugEntity)
    (now : ℤ) (tnow : ℕ) : (preSave ep store now tnow).updatedAt = now := by
  simp only [preSave]
  split_ifs <;> rfl

theorem preSave_title (ep : Epaper) (store : List SlugEntity) (now : ℤ)
    (tnow : ℕ) : (preSave ep store now tnow).title = ep.title := by
  simp only [preSave]
  split_ifs <;> rfl

theorem preSave_slug (ep : Epaper) (store : List SlugEntity) (now : ℤ)
    (tnow : ℕ) :
    (preSave ep store now tnow).slug =
      if ep.slug = "" ∧ ep.title ≠ "" then
        generateUniqueSlug store ep.title (some ep.oid) tnow
      else ep.slug := by
  simp only [preSave]
  split_ifs <;> rfl

theorem preSave_pages (ep : Epaper) (store : List SlugEntity) (now : ℤ)
    (tnow : ℕ) :
    (preSave ep store now tnow).pages =
      ep.pages.map fun p => { p with news := p.news.map preSaveNews } := by
  simp only [preSave]
  split_ifs <;> rfl

/-- C10: every save through the pre-save hook refreshes `updatedAt`;
an absent slug with a non-empty title gets the unique slug generated from
the title; afterwards a non-empty title implies a non-empty slug, and every
section with title or content text carries a non-empty slug. -/
theorem C10_presave_slug_invariant (ep : Epaper) (store : List SlugEntity)
    (now : ℤ) (tnow : ℕ) :
    (preSave ep store now tnow).updatedAt = now ∧
    (ep.slug = "" → ep.title ≠ "" →
      (preSave ep store now tnow).slug =
        generateUniqueSlug store ep.title (some ep.oid) tnow) ∧
    ((preSave ep store now tnow).title ≠ "" →
      (preSave ep store now tnow).slug ≠ "") ∧
    (∀ p ∈ (preSave ep store now tnow).pages, ∀ n ∈ p.news,
      n.title ≠ "" ∨ n.content ≠ "" → n.slug ≠ "") := by
  refine ⟨preSave_updatedAt ep store now tnow, ?_, ?_, ?_⟩
  · intro h1 h2
    rw [preSave_slug, if_pos ⟨h1, h2⟩]
  · intro htitle
    rw [preSave_title] at htitle
    rw [preSave_slug]
    split_ifs with hcond
    · exact generateUniqueSlug_ne_empty store ep.title (some ep.oid) tnow
        (generateSlug_ne_empty ep.title htitle)
    · intro hslug
      exact hcond ⟨hslug, htitle⟩
  · intro p hp n hn hne
    rw [preSave_pages] at hp
    simp only [List.mem_map] at hp
    obtain ⟨p0, _, hp0⟩ := hp
    rw [← hp0] at hn
    simp only [List.mem_map] at hn
    obtain ⟨n0, _, hn0⟩ := hn
    rw [← hn0] at hne ⊢
    apply preSaveNews_slug_ne
    rwa [preSaveNews_title, preSaveNews_content] at hne

/-- Fixture edition for the C10 witness: no slug yet, non-empty title,
one slug-less section with a title. -/
def epC10 : Epaper :=
  ⟨"oidX", 99, "Breaking News", "", 0, "published",
    [⟨1, "https://cdn/p1.jpg", none, 10, 10,
      [⟨some 1, some 0, some 0, some 1, some 1, "story", "", none, ""⟩]⟩], 0⟩

/-- C10 witness: on `epC10` the hook refreshes `updatedAt` and produces a
non-empty slug. -/
theorem C10_witness :
    (preSave epC10 [] 5 3).updatedAt = 5 ∧
      (preSave epC10 [] 5 3).slug ≠ "" :=
  ⟨(C10_presave_slug_invariant epC10 [] 5 3).1,
    (C10_presave_slug_invariant epC10 [] 5 3).2.2.1 (by decide)⟩

/-! ## Claim C1: the fallback branch of `generateSlug` -/

/-- The spec-side reading of "the lowest 8 base-36 digits of the hash":
the least-significant 8 digits of the base-36 representation. -/
def lowest8Base36 (n : ℕ) : List Char :=
  let l := (toBase36 n).toList
  l.drop (l.length - 8)

/-- C1 (amended): for every *non-empty* input whose normalized slug is
empty or shorter than 3 characters, `generateSlug` returns the non-empty
fallback slug: the localized prefix `लेख-` followed by the first
(most-significant) up-to-8 base-36 digits of the absolute value of the
additive/bit-shift hash of the original text. -/
theorem C1_generateSlug_fallback (text : String) (hne : text ≠ "")
    (hshort : (normalizeSlugText text).length < 3) :
    generateSlug text =
        String.mk ("लेख-".toList ++
          (toBase36 (jsHash text.toList).natAbs).toList.take 8) ∧
      (generateSlug text).toList.take 4 = "लेख-".toList ∧
      generateSlug text ≠ "" := by
  have hfb := fallbackSlug_length text
  have heq : generateSlug text = String.mk (fallbackSlug text) := by
    rw [generateSlug_eq text hne, if_pos hshort, if_neg (by omega)]
  refine ⟨heq, ?_, generateSlug_ne_empty text hne⟩
  rw [heq]
  show (fallbackSlug text).take 4 = _
  unfold fallbackSlug
  have h4 : ("लेख-".toList).length = 4 := by decide
  rw [← h4, List.take_left]

/-- C1 witness: a punctuation-only input takes the fallback branch. -/
theorem C1_witness :
    generateSlug "!!!" =
        String.mk ("लेख-".toList ++
          (toBase36 (jsHash "!!!".toList).natAbs).toList.take 8) ∧
      generateSlug "!!!" ≠ "" :=
  ⟨(C1_generateSlug_fallback "!!!" (by decide) (by decide)).1,
    (C1_generateSlug_fallback "!!!" (by decide) (by decide)).2.2⟩

/-- UTF-16 code units of the inner part (between `<` and `>`) of a
1647-character HTML-tag input, split into chunks so every concrete
evaluation below stays shallow.  The full input normalizes to the empty
slug while its hash magnitude `2822942752706` is at least `36 ^ 8`, so
its base-36 representation has 9 digits. -/
def bigInner0 : List Char := List.map Char.ofNat [
  35, 0, 149, 0, 75, 5, 0, 10, 121, 0, 0, 2, 131, 3783, 121, 18, 11, 67,
  0, 67, 0, 47, 5117, 0, 0, 0, 160, 123, 28, 0, 0, 10, 0, 0, 148, 2, 0, 5,
  0, 17]

def bigInner1 : List Char := List.map Char.ofNat [
  49, 75, 144, 0, 0, 52, 0, 170, 11871, 0, 150, 5, 3909, 75, 144, 67, 98,
  23, 185, 52, 0, 11951, 0, 0, 13, 0, 0, 33, 135, 126, 13, 53341, 155, 0,
  53348, 13, 0, 122, 17741, 165]

def bigInner2 : List Char := List.map Char.ofNat [
  116, 15, 129, 65, 183, 4, 0, 75, 144, 67, 98, 23, 10764, 0, 0, 0, 178,
  35466, 160, 0, 0, 137, 0, 35016, 0, 71, 129, 118, 131, 9023, 132, 103,
  0, 0, 40998, 0, 142, 75, 13, 0]

def bigInner3 : List Char := List.map Char.ofNat [
  136, 41, 127, 135, 2, 0, 117, 0, 183, 0, 0, 5, 74, 13, 0, 3620, 4, 0,
  22715, 135, 67, 0, 0, 0, 10, 144, 28621, 0, 79, 153, 2, 5236, 18, 126,
  116, 0, 0, 0, 131, 137]

def bigInner4 : List Char := List.map Char.ofNat [
  0, 0, 126, 13, 0, 0, 71, 129, 0, 0, 142, 178, 0, 19, 142, 165, 10, 0, 0,
  13, 150, 0, 1, 14015, 12080, 183, 169, 88, 103, 0, 150, 0, 32157, 0, 0,
  137, 147, 0, 0, 13]

def bigInner5 : List Char := List.map Char.ofNat [
  0, 0, 160, 7, 103, 0, 0, 2, 131, 2336, 2, 9, 49, 0, 14, 0, 0, 0, 131, 0,
  0, 0, 136, 9010, 0, 140, 95, 6020, 403, 0, 0, 5, 0, 144, 2373, 0, 131,
  0, 26409, 4]

def bigInner6 : List Char := List.map Char.ofNat [
  5, 103, 0, 150, 136, 0, 0, 7718, 129, 0, 0, 6, 0, 0, 0, 0, 4503, 66, 26,
  0, 2, 135, 0, 0, 131, 11, 0, 0, 15, 2, 26544, 2, 0, 0, 28503, 124, 131,
  47794, 29506, 33]

def bigInner7 : List Char := List.map Char.ofNat [
  32, 80, 0, 0, 0, 45, 25585, 26606, 0, 150, 188, 145, 160, 0, 67, 136,
  159, 0, 0, 0, 0, 135, 131, 64, 18, 127, 5, 178, 131, 13, 150, 5, 36, 75,
  135, 150, 5, 170, 26, 0]

def bigInner8 : List Char := List.map Char.ofNat [
  0, 27759, 0, 0, 118, 121, 0, 0, 131, 0, 160, 0, 0, 0, 0, 0, 17937, 0,
  32, 129, 56, 0, 0, 0, 144, 28, 0, 5, 0, 113, 24, 0, 58, 88, 131, 135, 0,
  37174, 0, 41795]

def bigInner9 : List Char := List.map Char.ofNat [
  0, 0, 0, 5, 4456, 68, 67, 75, 23, 0, 135, 173, 0, 13, 8, 5, 184, 0, 178,
  4, 144, 2, 0, 0, 33, 8, 54, 34600, 0, 140, 0, 53375, 143, 140, 137, 0,
  0, 0, 18063, 0]

def bigInner10 : List Char := List.map Char.ofNat [
  13, 5, 0, 4953, 0, 0, 0, 0, 0, 0, 0, 122, 0, 60, 142, 0, 15, 0, 13, 67,
  10, 0, 0, 41, 13, 13, 58, 0, 131, 0, 0, 1, 67, 0, 60, 0, 0, 0, 0, 0]

def bigInner11 : List Char := List.map Char.ofNat [
  127, 0, 0, 0, 0, 0, 0, 0, 0, 0, 0, 0, 0, 0, 0, 0, 0, 0, 0, 0, 0, 0, 0,
  0, 0, 0, 0, 0, 0, 0, 0, 0, 0, 0, 0, 0, 0, 0, 0, 0]

def bigInner12 : List Char := List.map Char.ofNat [
  0, 0, 0, 0, 0, 0, 0, 0, 0, 0, 0, 0, 0, 0, 0, 0, 0, 0, 0, 0, 0, 0, 0, 0,
  0, 0, 0, 0, 0, 0, 0, 0, 0, 0, 0, 0, 0, 0, 0, 0]

def bigInner13 : List Char := List.map Char.ofNat [
  0, 0, 0, 0, 0, 0, 0, 0, 0, 0, 0, 0, 0, 0, 0, 0, 0, 0, 0, 0, 0, 0, 0, 0,
  0, 0, 0, 0, 0, 0, 0, 0, 0, 0, 0, 0, 0, 0, 0, 0]

def bigInner14 : List Char := List.map Char.ofNat [
  0, 0, 0, 0, 0, 0, 0, 0, 0, 0, 0, 0, 0, 0, 0, 0, 0, 0, 0, 0, 0, 0, 0, 0,
  0, 0, 0, 0, 0, 0, 0, 0, 0, 0, 0, 0, 0, 0, 0, 0]

def bigInner15 : List Char := List.map Char.ofNat [
  0, 0, 0, 0, 0, 0, 0, 0, 0, 0, 0, 0, 0, 0, 0, 0, 0, 0, 0, 0, 0, 0, 0, 0,
  0, 0, 0, 0, 0, 0, 0, 0, 0, 0, 0, 0, 0, 0, 0, 0]

def bigInner16 : List Char := List.map Char.ofNat [
  0, 0, 0, 0, 0, 0, 0, 0, 0, 0, 0, 0, 0, 0, 0, 0, 0, 0, 0, 0, 0, 0, 0, 0,
  0, 0, 0, 0, 0, 0, 0, 0, 0, 0, 0, 0, 0, 0, 0, 0]

def bigInner17 : List Char := List.map Char.ofNat [
  0, 0, 0, 0, 0, 0, 0, 0, 0, 0, 0, 0, 0, 0, 0, 0, 0, 0, 0, 0, 0, 0, 0, 0,
  0, 0, 0, 0, 0, 0, 0, 0, 0, 0, 0, 0, 0, 0, 0, 0]

def bigInner18 : List Char := List.map Char.ofNat [
  0, 0, 0, 0, 0, 0, 0, 0, 0, 0, 0, 0, 0, 0, 0, 0, 0, 0, 0, 0, 0, 0, 0, 0,
  0, 0, 0, 0, 0, 0, 0, 0, 0, 0, 0, 0, 0, 0, 0, 0]

def bigInner19 : List Char := List.map Char.ofNat [
  0, 0, 0, 0, 0, 0, 0, 0, 0, 0, 0, 0, 0, 0, 0, 0, 0, 0, 0, 0, 0, 0, 0, 0,
  0, 0, 0, 0, 0, 0, 0, 0, 0, 0, 0, 0, 0, 0, 0, 0]

def bigInner20 : List Char := List.map Char.ofNat [
  0, 0, 0, 0, 0, 0, 0, 0, 0, 0, 0, 0, 0, 0, 0, 0, 0, 0, 0, 0, 0, 0, 0, 0,
  0, 0, 0, 0, 0, 0, 0, 0, 0, 0, 0, 0, 0, 0, 0, 0]

def bigInner21 : List Char := List.map Char.ofNat [
  0, 0, 0, 0, 0, 0, 0, 0, 0, 0, 0, 0, 0, 0, 0, 0, 0, 0, 0, 0, 0, 0, 0, 0,
  0, 0, 0, 0, 0, 0, 0, 0, 0, 0, 0, 0, 0, 0, 0, 0]

def bigInner22 : List Char := List.map Char.ofNat [
  0, 0, 0, 0, 0, 0, 0, 0, 0, 0, 0, 0, 0, 0, 0, 0, 0, 0, 0, 0, 0, 0, 0, 0,
  0, 0, 0, 0, 0, 0, 0, 0, 0, 0, 0, 0, 0, 0, 0, 0]

def bigInner23 : List Char := List.map Char.ofNat [
  0, 0, 0, 0, 0, 0, 0, 0, 0, 0, 0, 0, 0, 0, 0, 0, 0, 0, 0, 0, 0, 0, 0, 0,
  0, 0, 0, 0, 0, 0, 0, 0, 0, 0, 0, 0, 0, 0, 0, 0]

def bigInner24 : List Char := List.map Char.ofNat [
  0, 0, 0, 0, 0, 0, 0, 0, 0, 0, 0, 0, 0, 0, 0, 0, 0, 0, 0, 0, 0, 0, 0, 0,
  0, 0, 0, 0, 0, 0, 0, 0, 0, 0, 0, 0, 0, 0, 0, 0]

def bigInner25 : List Char := List.map Char.ofNat [
  0, 0, 0, 0, 0, 0, 0, 0, 0, 0, 0, 0, 0, 0, 0, 0, 0, 0, 0, 0, 0, 0, 0, 0,
  0, 0, 0, 0, 0, 0, 0, 0, 0, 0, 0, 0, 0, 0, 0, 0]

def bigInner26 : List Char := List.map Char.ofNat [
  0, 0, 0, 0, 0, 0, 0, 0, 0, 0, 0, 0, 0, 0, 0, 0, 0, 0, 0, 0, 0, 0, 0, 0,
  0, 0, 0, 0, 0, 0, 0, 0, 0, 0, 0, 0, 0, 0, 0, 0]

def bigInner27 : List Char := List.map Char.ofNat [
  0, 0, 0, 0, 0, 0, 0, 0, 0, 0, 0, 0, 0, 0, 0, 0, 0, 0, 0, 0, 0, 0, 0, 0,
  0, 0, 0, 0, 0, 0, 0, 0, 0, 0, 0, 0, 0, 0, 0, 0]

def bigInner28 : List Char := List.map Char.ofNat [
  0, 0, 0, 0, 0, 0, 0, 0, 0, 0, 0, 0, 0, 0, 0, 0, 0, 0, 0, 0, 0, 0, 0, 0,
  0, 0, 0, 0, 0, 0, 0, 0, 0, 0, 0, 0, 0, 0, 0, 0]

def bigInner29 : List Char := List.map Char.ofNat [
  0, 0, 0, 0, 0, 0, 0, 0, 0, 0, 0, 0, 0, 0, 0, 0, 0, 0, 0, 0, 0, 0, 0, 0,
  0, 0, 0, 0, 0, 0, 0, 0, 0, 0, 0, 0, 0, 0, 0, 0]

def bigInner30 : List Char := List.map Char.ofNat [
  0, 0, 0, 0, 0, 0, 0, 0, 0, 0, 0, 0, 0, 0, 0, 0, 0, 0, 0, 0, 0, 0, 0, 0,
  0, 0, 0, 0, 0, 0, 0, 0, 0, 0, 0, 0, 0, 0, 0, 0]

def bigInner31 : List Char := List.map Char.ofNat [
  0, 0, 0, 0, 0, 0, 0, 0, 0, 0, 0, 0, 0, 0, 0, 0, 0, 0, 0, 0, 0, 0, 0, 0,
  0, 0, 0, 0, 0, 0, 0, 0, 0, 0, 0, 0, 0, 0, 0, 0]

def bigInner32 : List Char := List.map Char.ofNat [
  0, 0, 0, 0, 0, 0, 0, 0, 0, 0, 0, 0, 0, 0, 0, 0, 0, 0, 0, 0, 0, 0, 0, 0,
  0, 0, 0, 0, 0, 0, 0, 0, 0, 0, 0, 0, 0, 0, 0, 0]

def bigInner33 : List Char := List.map Char.ofNat [
  0, 0, 0, 0, 0, 0, 0, 0, 0, 0, 0, 0, 0, 0, 0, 0, 0, 0, 0, 0, 0, 0, 0, 0,
  0, 0, 0, 0, 0, 0, 0, 0, 0, 0, 0, 0, 0, 0, 0, 0]

def bigInner34 : List Char := List.map Char.ofNat [
  0, 0, 0, 0, 0, 0, 0, 0, 0, 0, 0, 0, 0, 0, 0, 0, 0, 0, 0, 0, 0, 0, 0, 0,
  0, 0, 0, 0, 0, 0, 0, 0, 0, 0, 0, 0, 0, 0, 0, 0]

def bigInner35 : List Char := List.map Char.ofNat [
  0, 0, 0, 0, 0, 0, 0, 0, 0, 0, 0, 0, 0, 0, 0, 0, 0, 0, 0, 0, 0, 0, 0, 0,
  0, 0, 0, 0, 0, 0, 0, 0, 0, 0, 0, 0, 0, 0, 0, 0]

def bigInner36 : List Char := List.map Char.ofNat [
  0, 0, 0, 0, 0, 0, 0, 0, 0, 0, 0, 0, 0, 0, 0, 0, 0, 0, 0, 0, 0, 0, 0, 0,
  0, 0, 0, 0, 0, 0, 0, 0, 0, 0, 0, 0, 0, 0, 0, 0]

def bigInner37 : List Char := List.map Char.ofNat [
  0, 0, 0, 0, 0, 0, 0, 0, 0, 0, 0, 0, 0, 0, 0, 0, 0, 0, 0, 0, 0, 0, 0, 0,
  0, 0, 0, 0, 0, 0, 0, 0, 0, 0, 0, 0, 0, 0, 0, 0]

def bigInner38 : List Char := List.map Char.ofNat [
  0, 0, 0, 0, 0, 0, 0, 0, 0, 0, 0, 0, 0, 0, 0, 0, 0, 0, 0, 0, 0, 0, 0, 0,
  0, 0, 0, 0, 0, 0, 0, 0, 0, 0, 0, 0, 0, 0, 0, 0]

def bigInner39 : List Char := List.map Char.ofNat [
  0, 0, 0, 0, 0, 0, 0, 0, 0, 0, 0, 0, 0, 0, 0, 0, 0, 0, 0, 0, 0, 0, 0, 0,
  0, 0, 0, 0, 0, 0, 0, 0, 0, 0, 0, 0, 0, 0, 0, 0]

def bigInner40 : List Char := List.map Char.ofNat [
  0, 0, 0, 0, 0, 0, 0, 0, 0, 0, 0, 0, 0, 0, 0, 0, 0, 0, 0, 0, 0, 0, 0, 0,
  0, 0, 0, 0, 0, 0, 0, 0, 0, 0, 0, 0, 0, 0, 0, 0]

def bigInner41 : List Char := List.map Char.ofNat [
  0, 0, 0, 0, 0]

def bigInner : List Char :=
  bigInner0 ++ (bigInner1 ++ (bigInner2 ++ (bigInner3 ++ (bigInner4 ++ (bigInner5 ++ (bigInner6 ++ (bigInner7 ++ (bigInner8 ++ (bigInner9 ++ (bigInner10 ++ (bigInner11 ++ (bigInner12 ++ (bigInner13 ++ (bigInner14 ++ (bigInner15 ++ (bigInner16 ++ (bigInner17 ++ (bigInner18 ++ (bigInner19 ++ (bigInner20 ++ (bigInner21 ++ (bigInner22 ++ (bigInner23 ++ (bigInner24 ++ (bigInner25 ++ (bigInner26 ++ (bigInner27 ++ (bigInner28 ++ (bigInner29 ++ (bigInner30 ++ (bigInner31 ++ (bigInner32 ++ (bigInner33 ++ (bigInner34 ++ (bigInner35 ++ (bigInner36 ++ (bigInner37 ++ (bigInner38 ++ (bigInner39 ++ (bigInner40 ++ (bigInner41)))))))))))))))))))))))))))))))))))))))))

def bigTagChars : List Char :=
  '<' :: (bigInner ++ ['>'])

def bigTagText : String :=
  String.mk bigTagChars

/-- `jsHash` with an explicit accumulator, for chunked evaluation. -/
def jsHashAcc (acc : ℤ) (l : List Char) : ℤ :=
  l.foldl (fun a ch => hashStep a ch.toNat) acc

theorem jsHashAcc_append (acc : ℤ) (l1 l2 : List Char) :
    jsHashAcc acc (l1 ++ l2) = jsHashAcc (jsHashAcc acc l1) l2 := by
  simp only [jsHashAcc, List.foldl_append]

theorem jsHashAcc_cons (acc : ℤ) (c : Char) (l : List Char) :
    jsHashAcc acc (c :: l) = jsHashAcc (hashStep acc c.toNat) l := rfl

set_option maxRecDepth 8000 in
theorem bigHash0 : jsHashAcc 60 bigInner0 = (-45718039896) := by
  decide

set_option maxRecDepth 8000 in
theorem bigHash1 : jsHashAcc (-45718039896) bigInner1 = (-101547762221) := by
  decide

set_option maxRecDepth 8000 in
theorem bigHash2 : jsHashAcc (-101547762221) bigInner2 = (-159928297680) := by
  decide

set_option maxRecDepth 8000 in
theorem bigHash3 : jsHashAcc (-159928297680) bigInner3 = (-210710034225) := by
  decide

set_option maxRecDepth 8000 in
theorem bigHash4 : jsHashAcc (-210710034225) bigInner4 = (-261812213264) := by
  decide

set_option maxRecDepth 8000 in
theorem bigHash5 : jsHashAcc (-261812213264) bigInner5 = (-314948913244) := by
  decide

set_option maxRecDepth 8000 in
theorem bigHash6 : jsHashAcc (-314948913244) bigInner6 = (-360982872459) := by
  decide

set_option maxRecDepth 8000 in
theorem bigHash7 : jsHashAcc (-360982872459) bigInner7 = (-413491791528) := by
  decide

set_option maxRecDepth 8000 in
theorem bigHash8 : jsHashAcc (-413491791528) bigInner8 = (-460302258716) := by
  decide

set_option maxRecDepth 8000 in
theorem bigHash9 : jsHashAcc (-460302258716) bigInner9 = (-512002868901) := by
  decide

set_option maxRecDepth 8000 in
theorem bigHash10 : jsHashAcc (-512002868901) bigInner10 = (-557780464545) := by
  decide

set_option maxRecDepth 8000 in
theorem bigHash11 : jsHashAcc (-557780464545) bigInner11 = (-631972560896) := by
  decide

set_option maxRecDepth 8000 in
theorem bigHash12 : jsHashAcc (-631972560896) bigInner12 = (-707134488576) := by
  decide

set_option maxRecDepth 8000 in
theorem bigHash13 : jsHashAcc (-707134488576) bigInner13 = (-782296416256) := by
  decide

set_option maxRecDepth 8000 in
theorem bigHash14 : jsHashAcc (-782296416256) bigInner14 = (-857458343936) := by
  decide

set_option maxRecDepth 8000 in
theorem bigHash15 : jsHashAcc (-857458343936) bigInner15 = (-932620271616) := by
  decide

set_option maxRecDepth 8000 in
theorem bigHash16 : jsHashAcc (-932620271616) bigInner16 = (-1007782199296) := by
  decide

set_option maxRecDepth 8000 in
theorem bigHash17 : jsHashAcc (-1007782199296) bigInner17 = (-1082944126976) := by
  decide

set_option maxRecDepth 8000 in
theorem bigHash18 : jsHashAcc (-1082944126976) bigInner18 = (-1158106054656) := by
  decide

set_option maxRecDepth 8000 in
theorem bigHash19 : jsHashAcc (-1158106054656) bigInner19 = (-1233267982336) := by
  decide

set_option maxRecDepth 8000 in
theorem bigHash20 : jsHashAcc (-1233267982336) bigInner20 = (-1308429910016) := by
  decide

set_option maxRecDepth 8000 in
theorem bigHash21 : jsHashAcc (-1308429910016) bigInner21 = (-1383591837696) := by
  decide

set_option maxRecDepth 8000 in
theorem bigHash22 : jsHashAcc (-1383591837696) bigInner22 = (-1458753765376) := by
  decide

set_option maxRecDepth 8000 in
theorem bigHash23 : jsHashAcc (-1458753765376) bigInner23 = (-1533915693056) := by
  decide

set_option maxRecDepth 8000 in
theorem bigHash24 : jsHashAcc (-1533915693056) bigInner24 = (-1609077620736) := by
  decide

set_option maxRecDepth 8000 in
theorem bigHash25 : jsHashAcc (-1609077620736) bigInner25 = (-1684239548416) := by
  decide

set_option maxRecDepth 8000 in
theorem bigHash26 : jsHashAcc (-1684239548416) bigInner26 = (-1759401476096) := by
  decide

set_option maxRecDepth 8000 in
theorem bigHash27 : jsHashAcc (-1759401476096) bigInner27 = (-1834563403776) := by
  decide

set_option maxRecDepth 8000 in
theorem bigHash28 : jsHashAcc (-1834563403776) bigInner28 = (-1909725331456) := by
  decide

set_option maxRecDepth 8000 in
theorem bigHash29 : jsHashAcc (-1909725331456) bigInner29 = (-1984887259136) := by
  decide

set_option maxRecDepth 8000 in
theorem bigHash30 : jsHashAcc (-1984887259136) bigInner30 = (-2060049186816) := by
  decide

set_option maxRecDepth 8000 in
theorem bigHash31 : jsHashAcc (-2060049186816) bigInner31 = (-2135211114496) := by
  decide

set_option maxRecDepth 8000 in
theorem bigHash32 : jsHashAcc (-2135211114496) bigInner32 = (-2210373042176) := by
  decide

set_option maxRecDepth 8000 in
theorem bigHash33 : jsHashAcc (-2210373042176) bigInner33 = (-2285534969856) := by
  decide

set_option maxRecDepth 8000 in
theorem bigHash34 : jsHashAcc (-2285534969856) bigInner34 = (-2360696897536) := by
  decide

set_option maxRecDepth 8000 in
theorem bigHash35 : jsHashAcc (-2360696897536) bigInner35 = (-2435858825216) := by
  decide

set_option maxRecDepth 8000 in
theorem bigHash36 : jsHashAcc (-2435858825216) bigInner36 = (-2511020752896) := by
  decide

set_option maxRecDepth 8000 in
theorem bigHash37 : jsHashAcc (-2511020752896) bigInner37 = (-2586182680576) := by
  decide

set_option maxRecDepth 8000 in
theorem bigHash38 : jsHashAcc (-2586182680576) bigInner38 = (-2661344608256) := by
  decide

set_option maxRecDepth 8000 in
theorem bigHash39 : jsHashAcc (-2661344608256) bigInner39 = (-2736506535936) := by
  decide

set_option maxRecDepth 8000 in
theorem bigHash40 : jsHashAcc (-2736506535936) bigInner40 = (-2811668463616) := by
  decide

set_option maxRecDepth 8000 in
theorem bigHash41 : jsHashAcc (-2811668463616) bigInner41 = 2821063704576 := by
  decide

theorem bigTag_hash : jsHash bigTagChars = -2822942752706 := by
  show jsHashAcc 0 bigTagChars = -2822942752706
  rw [show bigTagChars = '<' :: (bigInner ++ ['>']) from rfl,
    jsHashAcc_cons, show hashStep 0 '<'.toNat = 60 from by decide,
    show bigInner = bigInner0 ++ (bigInner1 ++ (bigInner2 ++ (bigInner3 ++ (bigInner4 ++ (bigInner5 ++ (bigInner6 ++ (bigInner7 ++ (bigInner8 ++ (bigInner9 ++ (bigInner10 ++ (bigInner11 ++ (bigInner12 ++ (bigInner13 ++ (bigInner14 ++ (bigInner15 ++ (bigInner16 ++ (bigInner17 ++ (bigInner18 ++ (bigInner19 ++ (bigInner20 ++ (bigInner21 ++ (bigInner22 ++ (bigInner23 ++ (bigInner24 ++ (bigInner25 ++ (bigInner26 ++ (bigInner27 ++ (bigInner28 ++ (bigInner29 ++ (bigInner30 ++ (bigInner31 ++ (bigInner32 ++ (bigInner33 ++ (bigInner34 ++ (bigInner35 ++ (bigInner36 ++ (bigInner37 ++ (bigInner38 ++ (bigInner39 ++ (bigInner40 ++ (bigInner41))))))))))))))))))))))))))))))))))))))))) from rfl]
  simp only [jsHashAcc_append]
  rw [bigHash0, bigHash1, bigHash2, bigHash3, bigHash4, bigHash5, bigHash6, bigHash7, bigHash8, bigHash9, bigHash10, bigHash11, bigHash12, bigHash13, bigHash14, bigHash15, bigHash16, bigHash17, bigHash18, bigHash19, bigHash20, bigHash21, bigHash22, bigHash23, bigHash24, bigHash25, bigHash26, bigHash27, bigHash28, bigHash29, bigHash30, bigHash31, bigHash32, bigHash33, bigHash34, bigHash35, bigHash36, bigHash37, bigHash38, bigHash39, bigHash40, bigHash41]
  decide

theorem bigInner_no_gt : bigInner.all (fun c => !(c == '>')) = true := by
  rw [show bigInner = bigInner0 ++ (bigInner1 ++ (bigInner2 ++ (bigInner3 ++ (bigInner4 ++ (bigInner5 ++ (bigInner6 ++ (bigInner7 ++ (bigInner8 ++ (bigInner9 ++ (bigInner10 ++ (bigInner11 ++ (bigInner12 ++ (bigInner13 ++ (bigInner14 ++ (bigInner15 ++ (bigInner16 ++ (bigInner17 ++ (bigInner18 ++ (bigInner19 ++ (bigInner20 ++ (bigInner21 ++ (bigInner22 ++ (bigInner23 ++ (bigInner24 ++ (bigInner25 ++ (bigInner26 ++ (bigInner27 ++ (bigInner28 ++ (bigInner29 ++ (bigInner30 ++ (bigInner31 ++ (bigInner32 ++ (bigInner33 ++ (bigInner34 ++ (bigInner35 ++ (bigInner36 ++ (bigInner37 ++ (bigInner38 ++ (bigInner39 ++ (bigInner40 ++ (bigInner41))))))))))))))))))))))))))))))))))))))))) from rfl]
  simp only [List.all_append, Bool.and_eq_true]
  refine ⟨?_, ?_, ?_, ?_, ?_, ?_, ?_, ?_, ?_, ?_, ?_, ?_, ?_, ?_, ?_, ?_, ?_, ?_, ?_, ?_, ?_, ?_, ?_, ?_, ?_, ?_, ?_, ?_, ?_, ?_, ?_, ?_, ?_, ?_, ?_, ?_, ?_, ?_, ?_, ?_, ?_, ?_⟩ <;> decide

theorem bigInner_length : bigInner.length = 1645 := by
  rw [show bigInner = bigInner0 ++ (bigInner1 ++ (bigInner2 ++ (bigInner3 ++ (bigInner4 ++ (bigInner5 ++ (bigInner6 ++ (bigInner7 ++ (bigInner8 ++ (bigInner9 ++ (bigInner10 ++ (bigInner11 ++ (bigInner12 ++ (bigInner13 ++ (bigInner14 ++ (bigInner15 ++ (bigInner16 ++ (bigInner17 ++ (bigInner18 ++ (bigInner19 ++ (bigInner20 ++ (bigInner21 ++ (bigInner22 ++ (bigInner23 ++ (bigInner24 ++ (bigInner25 ++ (bigInner26 ++ (bigInner27 ++ (bigInner28 ++ (bigInner29 ++ (bigInner30 ++ (bigInner31 ++ (bigInner32 ++ (bigInner33 ++ (bigInner34 ++ (bigInner35 ++ (bigInner36 ++ (bigInner37 ++ (bigInner38 ++ (bigInner39 ++ (bigInner40 ++ (bigInner41))))))))))))))))))))))))))))))))))))))))) from rfl]
  simp only [List.length_append,
    (by decide : bigInner0.length = 40), (by decide : bigInner1.length =
    40), (by decide : bigInner2.length = 40), (by decide :
    bigInner3.length = 40), (by decide : bigInner4.length = 40), (by
    decide : bigInner5.length = 40), (by decide : bigInner6.length = 40),
    (by decide : bigInner7.length = 40), (by decide : bigInner8.length =
    40), (by decide : bigInner9.length = 40), (by decide :
    bigInner10.length = 40), (by decide : bigInner11.length = 40), (by
    decide : bigInner12.length = 40), (by decide : bigInner13.length =
    40), (by decide : bigInner14.length = 40), (by decide :
    bigInner15.length = 40), (by decide : bigInner16.length = 40), (by
    decide : bigInner17.length = 40), (by decide : bigInner18.length =
    40), (by decide : bigInner19.length = 40), (by decide :
    bigInner20.length = 40), (by decide : bigInner21.length = 40), (by
    decide : bigInner22.length = 40), (by decide : bigInner23.length =
    40), (by decide : bigInner24.length = 40), (by decide :
    bigInner25.length = 40), (by decide : bigInner26.length = 40), (by
    decide : bigInner27.length = 40), (by decide : bigInner28.length =
    40), (by decide : bigInner29.length = 40), (by decide :
    bigInner30.length = 40), (by decide : bigInner31.length = 40), (by
    decide : bigInner32.length = 40), (by decide : bigInner33.length =
    40), (by decide : bigInner34.length = 40), (by decide :
    bigInner35.length = 40), (by decide : bigInner36.length = 40), (by
    decide : bigInner37.length = 40), (by decide : bigInner38.length =
    40), (by decide : bigInner39.length = 40), (by decide :
    bigInner40.length = 40), (by decide : bigInner41.length = 5)
    ]

/-- In a list with no `'>'` followed by `['>']`, the first `'>'` sits exactly
at the end, whatever the start index of the search. -/
theorem findIdx_gt_append :
    ∀ (l : List Char), l.all (fun c => !(c == '>')) = true →
      ∀ i : ℕ,
        List.findIdx? (fun c => c == '>') (l ++ ['>']) i = some (i + l.length) := by
  intro l
  induction l with
  | nil => intro _ i; simp
  | cons a t ih =>
    intro h i
    simp only [List.all_cons, Bool.and_eq_true] at h
    have ha : (a == '>') = false := by
      cases hc : (a == '>')
      · rfl
      · rw [hc] at h; simp at h
    simp only [List.cons_append, List.findIdx?_cons, ha, Bool.false_eq_true,
      if_false, List.length_cons]
    rw [ih h.2 (i + 1)]
    congr 1
    omega

/-- One step of the tag-stripper on a complete tag `<inner>` with a non-empty
inner part free of `'>'`: the whole tag is dropped. -/
theorem stripTagsCore_tag (fuel : ℕ) (inner : List Char)
    (hno : inner.all (fun c => !(c == '>')) = true) (hne : inner.length ≠ 0) :
    stripTagsCore (fuel + 1) ('<' :: (inner ++ ['>'])) =
      stripTagsCore fuel ((inner ++ ['>']).drop (inner.length + 1)) := by
  have hfind := findIdx_gt_append inner hno 0
  rw [Nat.zero_add] at hfind
  simp only [stripTagsCore, beq_self_eq_true, if_true]
  rw [hfind]
  simp only [if_neg hne]

theorem bigTagChars_length : bigTagChars.length = 1647 := by
  rw [show bigTagChars = '<' :: (bigInner ++ ['>']) from rfl]
  simp [List.length_append, bigInner_length]

theorem stripTags_bigTag : stripTags bigTagChars = [] := by
  rw [stripTags, bigTagChars_length]
  rw [show bigTagChars = '<' :: (bigInner ++ ['>']) from rfl]
  rw [show (1647 : ℕ) = 1646 + 1 from rfl]
  rw [stripTagsCore_tag 1646 bigInner bigInner_no_gt
    (by rw [bigInner_length]; decide)]
  rw [bigInner_length]
  have hdrop : (bigInner ++ ['>']).drop (1645 + 1) = [] := by
    apply List.drop_eq_nil_of_le
    simp [List.length_append, bigInner_length]
  rw [hdrop]
  simp only [stripTagsCore]

theorem jsTrim_bigTag : jsTrim bigTagChars = bigTagChars := by
  have h1 : bigTagChars.dropWhile isJsSpace = bigTagChars := by
    rw [show bigTagChars = '<' :: (bigInner ++ ['>']) from rfl]
    rw [List.dropWhile_cons_of_neg (by decide)]
  have hrev : bigTagChars.reverse = '>' :: (bigInner.reverse ++ ['<']) := by
    rw [show bigTagChars = '<' :: (bigInner ++ ['>']) from rfl]
    simp [List.reverse_cons, List.reverse_append]
  rw [jsTrim, h1, hrev, List.dropWhile_cons_of_neg (by decide), ← hrev,
    List.reverse_reverse]

theorem bigTag_norm : normalizeSlugText bigTagText = [] := by
  simp only [normalizeSlugText]
  rw [show bigTagText.toList = bigTagChars from rfl, jsTrim_bigTag,
    stripTags_bigTag]
  rfl

theorem bigTagText_ne : bigTagText ≠ "" := by
  intro h
  have h2 := congrArg String.data h
  rw [show bigTagText.data = bigTagChars from rfl,
    show ("" : String).data = [] from rfl,
    show bigTagChars = '<' :: (bigInner ++ ['>']) from rfl] at h2
  exact absurd h2 (List.cons_ne_nil _ _)

/-- C1 counterexample, refuting the claim as stated at two explicit
inputs: `generateSlug ""` returns the empty string (the `if (!text)`
guard fires), not a non-empty fallback slug; and on `bigTagText`
(normalized slug empty, hash `-2822942752706`, base-36 digits
`100ub88g2`) the code emits the 8 *most significant* digits `100ub88g`
(`substring(0, 8)`), not the lowest 8 digits `00ub88g2`. -/
theorem C1_counterexample :
    generateSlug "" = "" ∧
      (normalizeSlugText bigTagText).length < 3 ∧
      (toBase36 (jsHash bigTagText.toList).natAbs).length = 9 ∧
      generateSlug bigTagText ≠
        String.mk ("लेख-".toList ++
          lowest8Base36 (jsHash bigTagText.toList).natAbs) := by
  have hshort : (normalizeSlugText bigTagText).length < 3 := by
    rw [bigTag_norm]; decide
  refine ⟨by decide, hshort, ?_, ?_⟩
  · rw [show bigTagText.toList = bigTagChars from rfl, bigTag_hash]
    decide
  · have hfb := fallbackSlug_length bigTagText
    have heq : generateSlug bigTagText = String.mk (fallbackSlug bigTagText) := by
      rw [generateSlug_eq bigTagText bigTagText_ne, if_pos hshort,
        if_neg (by omega)]
    rw [heq]
    simp only [fallbackSlug, lowest8Base36]
    rw [show bigTagText.toList = bigTagChars from rfl, bigTag_hash]
    decide
